import Mathlib

/-!
Verification model of the MeshConverter repository core: the canonical mesh
data model (`MeshTypes.cpp`), format detection (`MeshHelper.cpp`,
`MeshReader::detectFormatFromHeader`), the native surface-format parsers
(`MeshReader::readSTL/readSTLBinary/readSTLASCII/readOBJ/readPLY/readOFF`),
the writer dispatcher (`MeshWriter.cpp`) and the conversion orchestrator
(`MeshConverter.cpp`).

Modelling conventions:
- Files are finite byte lists (`List Nat`, each entry a byte value).  The
  filesystem is an explicit snapshot (`FS`).
- C++ `float` values are never computed with: a float parsed from a binary
  file is kept as its 32-bit pattern (`FVal.bits`), a float parsed from text
  is kept as the exact lexeme the stream extraction consumed (`FVal.lex`).
  This preserves bit-identity, counts and all control flow, which is all the
  claims use.
- Machine integers are `Nat`/`Int` with explicit `% 2 ^ 32` / `% 2 ^ 64`
  where the C++ code converts or wraps.
- `std::string::substr(pos)` throws `std::out_of_range` when `pos > size()`;
  because `pos` is a `size_t`, a negative intermediate wraps modulo `2 ^ 64`.
  This is modelled by `substrT` / `sizeSub` returning `Except`.
- Stream extraction (`operator>>`) is modelled character-exactly on the
  remaining input: skip whitespace, then consume the longest valid lexeme;
  extraction of a malformed or absent lexeme fails, as the C++ stream sets
  failbit.
-/

set_option maxRecDepth 20000

namespace MeshConv

/-- VtkCellType enum from MeshTypes.h. -/
inductive VtkCellType where
  | VERTEX | LINE | TRIANGLE | QUAD | TETRA | HEXAHEDRON | WEDGE | PYRAMID
  | TRIANGLE_STRIP | POLYGON
deriving DecidableEq, Repr

/-- MeshFormat enum from MeshTypes.h. -/
inductive MeshFormat where
  | UNKNOWN | VTK_LEGACY | VTK_XML | CGNS | GMSH_V2 | GMSH_V4 | SU2 | OPENFOAM
  | STL_ASCII | STL_BINARY | OBJ | PLY_ASCII | PLY_BINARY | OFF
deriving DecidableEq, Repr

/-- MeshErrorCode enum from MeshTypes.h. -/
inductive MeshErrorCode where
  | SUCCESS | FILE_NOT_EXIST | FORMAT_UNSUPPORTED | READ_FAILED | WRITE_FAILED
  | MESH_EMPTY | PARAM_INVALID | DEPENDENCY_MISSING | FORMAT_VERSION_INVALID
deriving DecidableEq, Repr

/-- MeshType enum from MeshTypes.h. -/
inductive MeshType where
  | UNKNOWN | VOLUME_MESH | SURFACE_MESH
deriving DecidableEq, Repr

/-- A C++ float value as stored in MeshData: either the 32-bit pattern read
from a binary file, or the exact lexeme consumed by text-stream extraction
(byte values). No arithmetic is ever performed on floats in the modelled
code paths, so this representation is lossless. -/
inductive FVal where
  | bits (w : Nat)
  | lex (s : List Nat)
deriving DecidableEq, Repr

/-- MeshData::Cell from MeshTypes.h: a cell type tag plus uint32 point
indices (kept as Nat values `< 2 ^ 32`). -/
structure Cell where
  type : VtkCellType
  pointIndices : List Nat
deriving DecidableEq, Repr

/-- MeshMetadata from MeshTypes.h. The unordered cellTypeCount map is kept
as an association list in a canonical order (map content equality is what
the C++ type offers). -/
structure MeshMetadata where
  fileName : String := ""
  meshType : MeshType := .UNKNOWN
  format : MeshFormat := .UNKNOWN
  pointCount : Nat := 0
  cellCount : Nat := 0
  cellTypeCount : List (VtkCellType × Nat) := []
  physicalRegions : List String := []
  pointDataNames : List String := []
  cellDataNames : List String := []
  formatVersion : String := ""
deriving DecidableEq, Repr

/-- MeshData from MeshTypes.h. The unordered attribute maps are association
lists. -/
structure MeshData where
  points : List FVal := []
  cells : List Cell := []
  pointData : List (String × List FVal) := []
  cellData : List (String × List FVal) := []
  metadata : MeshMetadata := {}
deriving DecidableEq, Repr

/-- MeshData::clear from MeshTypes.cpp clears every container and resets the
metadata to default values; it is a constant function. -/
def MeshData.clear (_ : MeshData) : MeshData :=
  { points := [], cells := [], pointData := [], cellData := [], metadata := {} }

/-- MeshData::isEmpty from MeshTypes.cpp: `points.empty() && cells.empty()`. -/
def MeshData.isEmpty (m : MeshData) : Bool :=
  m.points.isEmpty && m.cells.isEmpty

/-- The fixed list of all cell types, used to build the histogram in a
canonical order. -/
def allCellTypes : List VtkCellType :=
  [.VERTEX, .LINE, .TRIANGLE, .QUAD, .TETRA, .HEXAHEDRON, .WEDGE, .PYRAMID,
   .TRIANGLE_STRIP, .POLYGON]

/-- Whether a cell type is volumetric (the switch in
MeshData::calculateMetadata). -/
def isVolumeCellType : VtkCellType → Bool
  | .TETRA | .HEXAHEDRON | .WEDGE | .PYRAMID => true
  | _ => false

/-- MeshData::calculateMetadata from MeshTypes.cpp: recompute the derived
metadata from points/cells/attribute maps. Fields it does not touch
(fileName, format, physicalRegions, formatVersion) are preserved. -/
def MeshData.calculateMetadata (m : MeshData) : MeshData :=
  { m with metadata :=
    { m.metadata with
      pointCount := m.points.length / 3
      cellCount := m.cells.length
      cellTypeCount :=
        (allCellTypes.map
          (fun t => (t, (m.cells.filter (fun c => c.type = t)).length))).filter
          (fun e => e.2 ≠ 0)
      pointDataNames := m.pointData.map (fun e => e.1)
      cellDataNames := m.cellData.map (fun e => e.1)
      meshType :=
        if m.cells.isEmpty then .UNKNOWN
        else if m.cells.any (fun c => isVolumeCellType c.type) then .VOLUME_MESH
        else .SURFACE_MESH } }

/-! ### Byte and character-stream utilities -/

/-- Bytes of an ASCII string literal. -/
def S (s : String) : List Nat := s.data.map Char.toNat

/-- C `isspace` in the default locale (space, \t, \n, \v, \f, \r). -/
def isSpaceB (b : Nat) : Bool := b = 32 || (9 ≤ b && b ≤ 13)

/-- ASCII decimal digit test. -/
def isDigitB (b : Nat) : Bool := 48 ≤ b && b ≤ 57

/-- C `tolower` restricted to ASCII. -/
def toLowerB (b : Nat) : Nat := if 65 ≤ b && b ≤ 90 then b + 32 else b

/-- Drop leading whitespace (the left-trim idiom used throughout
MeshReader.cpp, and stream whitespace skipping). -/
def dropWs (s : List Nat) : List Nat := s.dropWhile isSpaceB

/-- Right trim (the erase-from-reverse-find idiom in MeshReader.cpp). -/
def trimR (s : List Nat) : List Nat := (s.reverse.dropWhile isSpaceB).reverse

/-- Does the first list start with the second? -/
def headMatch (hay pat : List Nat) : Bool :=
  match pat with
  | [] => true
  | b :: bs =>
    match hay with
    | [] => false
    | a :: as => a = b && headMatch as bs

/-- `std::string::find(pat) != npos`: does hay contain pat as a contiguous
sublist? -/
def hasSub : List Nat → List Nat → Bool
  | [], pat => headMatch [] pat
  | a :: t, pat => headMatch (a :: t) pat || hasSub t pat

/-- Little-endian 32-bit word from four bytes. -/
def le32 (b0 b1 b2 b3 : Nat) : Nat :=
  b0 % 256 + 256 * (b1 % 256) + 65536 * (b2 % 256) + 16777216 * (b3 % 256)

/-- Group a byte list into little-endian 32-bit words (incomplete trailing
group dropped; callers always pass a multiple of 4 bytes). -/
def words32 : List Nat → List Nat
  | b0 :: b1 :: b2 :: b3 :: t => le32 b0 b1 b2 b3 :: words32 t
  | _ => []

/-- `istream::read(buf, n)`: take exactly n bytes or fail (failbit when
fewer than n characters are available). -/
def takeBytes (n : Nat) (bs : List Nat) : Option (List Nat × List Nat) :=
  if n ≤ bs.length then some (bs.take n, bs.drop n) else none

/-- Contents of a zero-initialized n-byte buffer after `read(buf, n)` on a
file with the given bytes, converted to std::string (stops at the first NUL;
a short read leaves the zero padding in place). -/
def cString (bs : List Nat) (n : Nat) : List Nat :=
  (bs.take n).takeWhile (fun b => b ≠ 0)

/-- `std::getline` on a byte stream: none exactly at end of input; otherwise
the line up to (not including) the next \n, and the rest after it. -/
def getlineB : List Nat → Option (List Nat × List Nat)
  | [] => none
  | b :: t =>
    if b = 10 then some ([], t)
    else
      match getlineB t with
      | none => some ([b], [])
      | some (l, r) => some (b :: l, r)

/-- Successive `std::getline` results on a byte stream: each entry is one
returned line together with the stream contents remaining after it (what a
subsequent raw `read` would see). -/
def lineSplits : List Nat → List (List Nat × List Nat)
  | [] => []
  | b :: t =>
    if b = 10 then ([], t) :: lineSplits t
    else
      match lineSplits t with
      | [] => [([b], [])]
      | (l, r) :: ls => (b :: l, r) :: ls

/-- All lines of a byte stream, as successive `std::getline` calls return
them. -/
def linesOf : List Nat → List (List Nat)
  | [] => []
  | b :: t =>
    if b = 10 then [] :: linesOf t
    else
      match linesOf t with
      | [] => [[b]]
      | l :: ls => (b :: l) :: ls

/-- Longest ASCII digit run and the rest. -/
def digitsPre (s : List Nat) : List Nat × List Nat :=
  (s.takeWhile isDigitB, s.dropWhile isDigitB)

/-- Numeric value of an ASCII digit run. -/
def digitsVal (ds : List Nat) : Nat :=
  ds.foldl (fun acc d => acc * 10 + (d - 48)) 0

/-- Optional leading sign: (isNeg, consumed?, rest). -/
def signPre (s : List Nat) : Bool × List Nat :=
  match s with
  | 45 :: t => (true, t)
  | 43 :: t => (false, t)
  | _ => (false, s)

/-- Longest lexeme acceptable to `num_get` for a floating value, starting at
the head of the input (whitespace already skipped): optional sign, digits
with an optional fractional part (at least one digit overall), optional
exponent. When an `e`/`E` is taken but no exponent digit follows, the C++
extraction fails as a whole (num_get consumes the characters and the final
conversion fails); this returns none then. Returns (lexeme, rest). -/
def floatLex (s : List Nat) : Option (List Nat × List Nat) :=
  let sg : List Nat × List Nat :=
    match s with
    | 43 :: t => ([43], t)
    | 45 :: t => ([45], t)
    | _ => ([], s)
  let d1 := digitsPre sg.2
  let frac : List Nat × List Nat :=
    match d1.2 with
    | 46 :: t => let dd := digitsPre t; (46 :: dd.1, dd.2)
    | _ => ([], d1.2)
  if d1.1.isEmpty && (frac.1.length ≤ 1) then none
  else
    match frac.2 with
    | 101 :: t =>
      let esg := signPre t
      let esgl : List Nat := if t = esg.2 then [] else [t.headD 0]
      let ed := digitsPre esg.2
      if ed.1.isEmpty then none
      else some (sg.1 ++ d1.1 ++ frac.1 ++ [101] ++ esgl ++ ed.1, ed.2)
    | 69 :: t =>
      let esg := signPre t
      let esgl : List Nat := if t = esg.2 then [] else [t.headD 0]
      let ed := digitsPre esg.2
      if ed.1.isEmpty then none
      else some (sg.1 ++ d1.1 ++ frac.1 ++ [69] ++ esgl ++ ed.1, ed.2)
    | _ => some (sg.1 ++ d1.1 ++ frac.1, frac.2)

/-- `stream >> (float&)`: skip whitespace, consume a float lexeme. -/
def extractFloat (s : List Nat) : Option (FVal × List Nat) :=
  match floatLex (dropWs s) with
  | none => none
  | some (lx, r) => some (.lex lx, r)

/-- Integer lexeme (sign + digits) with its value; none when no digit. -/
def intLex (s : List Nat) : Option (Int × List Nat) :=
  let sg := signPre s
  let d := digitsPre sg.2
  if d.1.isEmpty then none
  else some ((if sg.1 then -(digitsVal d.1 : Int) else (digitsVal d.1 : Int)), d.2)

/-- `stream >> (int&)`: skip whitespace, consume sign+digits; out-of-range
values set failbit (C++11), modelled as failure. -/
def extractIntC (s : List Nat) : Option (Int × List Nat) :=
  match intLex (dropWs s) with
  | none => none
  | some (v, r) => if v < -(2 ^ 31) || (2 ^ 31 - 1 : Int) < v then none else some (v, r)

/-- `stream >> (uint32_t&)`: always stores a value (C++11 num_get): 0 when no
conversion, the wrapped/clamped value otherwise; the stored value is what the
PLY header scan uses since it never checks the stream state. Returns
(value, rest, extraction succeeded). -/
def extractU32 (s : List Nat) : Nat × List Nat × Bool :=
  let s1 := dropWs s
  let sg := signPre s1
  let d := digitsPre sg.2
  if d.1.isEmpty then (0, s1, false)
  else
    let v := digitsVal d.1
    if sg.1 then
      (if v = 0 then 0 else 2 ^ 32 - 1, d.2, false)
    else if 2 ^ 32 - 1 < v then (2 ^ 32 - 1, d.2, false)
    else (v, d.2, true)

/-- `stream >> (std::string&)`: skip whitespace, take the maximal
non-whitespace token; fails at end of input. -/
def extractTok (s : List Nat) : Option (List Nat × List Nat) :=
  let s1 := dropWs s
  let t := s1.takeWhile (fun b => !isSpaceB b)
  if t.isEmpty then none else some (t, s1.drop t.length)

/-- `std::stoi`: skip whitespace, sign+digits; throws (none) when there is no
digit (invalid_argument) or the value does not fit in int (out_of_range). -/
def stoiM (s : List Nat) : Option Int :=
  match intLex (dropWs s) with
  | none => none
  | some (v, _) => if v < -(2 ^ 31) || (2 ^ 31 - 1 : Int) < v then none else some v

/-! ### Filesystem snapshot and std::filesystem::path operations -/

/-- A filesystem snapshot: regular files with contents, directories, and
directories whose creation would fail (permissions, race, ...). -/
structure FS where
  files : List (String × List Nat) := []
  dirs : List String := []
  failDirs : List String := []
deriving DecidableEq, Repr

/-- std::filesystem::exists. -/
def FS.pathExists (fs : FS) (p : String) : Bool :=
  fs.files.any (fun e => e.1 = p) || fs.dirs.contains p

/-- std::filesystem::is_directory. -/
def FS.isDir (fs : FS) (p : String) : Bool := fs.dirs.contains p

/-- `std::ifstream` open + full read: contents of a regular file, none when
the path cannot be opened for reading (missing, or a directory). -/
def FS.openRead (fs : FS) (p : String) : Option (List Nat) :=
  match fs.files.find? (fun e => e.1 = p) with
  | some e => some e.2
  | none => none

/-- std::filesystem::create_directories, returning success and the new
snapshot (failure throws in C++; every caller catches it and turns it into
a boolean). -/
def FS.mkdirs (fs : FS) (d : String) : Bool × FS :=
  if fs.failDirs.contains d then (false, fs)
  else (true, { fs with dirs := d :: fs.dirs })

/-- ASCII tolower on a char (std::transform ::tolower idiom; paths in the
model are ASCII). -/
def lowerChar (c : Char) : Char :=
  if 65 ≤ c.toNat && c.toNat ≤ 90 then Char.ofNat (c.toNat + 32) else c

/-- Lowercased copy of a string. -/
def lowerStr (s : String) : String := ⟨s.data.map lowerChar⟩

/-- size_t subtraction `a - b` (wraps modulo 2^64). -/
def sizeSub (a b : Nat) : Nat := (a + 2 ^ 64 - b) % 2 ^ 64

/-- `std::string::substr(pos)`: suffix from pos, or std::out_of_range when
`pos > size()`. -/
def substrT (s : String) (pos : Nat) : Except Unit String :=
  if pos ≤ s.data.length then .ok ⟨s.data.drop pos⟩ else .error ()

/-- Filename component of a path (after the last slash). -/
def filenameOf (p : String) : List Char :=
  (p.data.reverse.takeWhile (fun c => c ≠ '/')).reverse

/-- Length of the std::filesystem::path extension of a filename (0 when
there is none): from the last dot on, except for ".", ".." and a dot in
leading position. -/
def extLenOf (f : List Char) : Nat :=
  if f = ['.'] || f = ['.', '.'] then 0
  else
    let tailAfter := f.reverse.takeWhile (fun c => c ≠ '.')
    if tailAfter.length = f.length then 0
    else
      let dotIdx := f.length - tailAfter.length - 1
      if dotIdx = 0 then 0 else f.length - dotIdx

/-- MeshHelper::getFileExtension: path extension, lowercased, with the dot. -/
def getFileExtension (p : String) : String :=
  let f := filenameOf p
  ⟨(f.drop (f.length - extLenOf f)).map lowerChar⟩

/-- std::filesystem::path::stem of a path's filename: filename minus
extension (case preserved). -/
def stemOf (p : String) : String :=
  let f := filenameOf p
  ⟨f.take (f.length - extLenOf f)⟩

/-- std::filesystem::path::parent_path (as a string). -/
def parentPath (p : String) : String :=
  let f := filenameOf p
  let r := p.data.take (p.data.length - f.length)
  let r2 := (r.reverse.dropWhile (fun c => c = '/')).reverse
  if r2.isEmpty && !r.isEmpty then "/" else ⟨r2⟩

/-- `path /= component` followed by .string(). -/
def joinPath (d n : String) : String :=
  if d = "" then n
  else if d.data.getLast? = some '/' then d ++ n
  else d ++ "/" ++ n

/-! ### Format detection -/

namespace MeshReader

/-- MeshReader::fileExists. -/
def fileExists (fs : FS) (p : String) : Bool := fs.pathExists p

/-- The 128-byte header probe at the end of MeshReader::detectFormatFromHeader
(reached when no extension matched, or for the ".ply" extension). The
`headerStr.substr(0, 8) == "\x00\x00\x00\x00"` check in the source compares
against the std::string built from that literal, which is empty (it stops at
the first NUL); the check is therefore true exactly when headerStr is empty. -/
def headerSniff (bs : List Nat) : MeshFormat :=
  if hasSub (cString bs 128) (S "# vtk") then .VTK_LEGACY
  else if hasSub (cString bs 128) (S "<?xml") &&
      hasSub (cString bs 128) (S "VTKFile") then .VTK_XML
  else if hasSub (cString bs 128) (S "CGNS") ||
      ((bs.headD 0 = 67) && (bs.getD 1 0 = 71) && (bs.getD 2 0 = 78) &&
       (bs.getD 3 0 = 83)) then .CGNS
  else if hasSub (cString bs 128) (S "$MeshFormat") then
    (if hasSub (cString bs 128) (S "4.") then .GMSH_V4 else .GMSH_V2)
  else if hasSub (cString bs 128) (S "solid") ||
      hasSub (cString bs 128) (S "SOLID") then .STL_ASCII
  else if (cString bs 128).isEmpty then .STL_BINARY
  else if hasSub (cString bs 128) (S "v ") &&
      hasSub (cString bs 128) (S "f ") then .OBJ
  else if hasSub (cString bs 128) (S "ply") then
    (if hasSub (cString bs 128) (S "ascii") then .PLY_ASCII else .PLY_BINARY)
  else if hasSub (cString bs 128) (S "OFF") then .OFF
  else if hasSub (cString bs 128) (S "SU2_MESH") then .SU2
  else .UNKNOWN

/-- The header probe including the file open (cannot open ⟶ UNKNOWN). -/
def headerProbe (fs : FS) (p : String) : MeshFormat :=
  match fs.openRead p with
  | none => .UNKNOWN
  | some bs => headerSniff bs

/-- The ".stl" extension branch of MeshReader::detectFormatFromHeader:
open the file, read 80 bytes, ASCII when the first five characters are
"solid" case-insensitively, binary otherwise (also binary when the file
cannot be opened). -/
def stlSniff (fs : FS) (p : String) : MeshFormat :=
  match fs.openRead p with
  | none => .STL_BINARY
  | some bs =>
    if ((cString bs 80).take 5).map toLowerB = S "solid" then .STL_ASCII
    else .STL_BINARY

/-- MeshReader::detectFormatFromHeader. The extension comparisons use
`lowerPath.substr(lowerPath.size() - 4)` (and `- 5` for ".cgns"): the
subtraction is a size_t subtraction, so for paths shorter than the
literal the position wraps past the size and substr throws
std::out_of_range, modelled by the Except error. -/
def detectFormatFromHeader (fs : FS) (p : String) : Except Unit MeshFormat :=
  if !fileExists fs p then .ok .UNKNOWN
  else
    match substrT (lowerStr p) (sizeSub (lowerStr p).data.length 4) with
    | .error e => .error e
    | .ok e4 =>
      if e4 = ".vtk" then .ok .VTK_LEGACY
      else if e4 = ".vtu" || e4 = ".vtp" || e4 = ".vti" || e4 = ".vts" then
        .ok .VTK_XML
      else
        match substrT (lowerStr p) (sizeSub (lowerStr p).data.length 5) with
        | .error e => .error e
        | .ok e5 =>
          if e5 = ".cgns" then .ok .CGNS
          else if e4 = ".msh" then .ok .GMSH_V2
          else if e4 = ".stl" then .ok (stlSniff fs p)
          else if e4 = ".obj" then .ok .OBJ
          else if e4 = ".ply" then .ok (headerProbe fs p)
          else if e4 = ".off" then .ok .OFF
          else if e4 = ".su2" then .ok .SU2
          else if fs.isDir p && fs.pathExists (p ++ "/polyMesh") then
            .ok .OPENFOAM
          else .ok (headerProbe fs p)

end MeshReader

namespace MeshHelper

/-- The ".msh" version sniff inside MeshHelper::detectFormat: scan lines for
one containing "$MeshFormat"; when a following line exists, "4." in it
selects v4, anything else v2; in every other case the default is v2. -/
def mshSniff (ls : List (List Nat)) : MeshFormat :=
  match ls with
  | [] => .GMSH_V2
  | l :: rest =>
    if hasSub l (S "$MeshFormat") then
      match rest with
      | [] => .GMSH_V2
      | l2 :: _ => if hasSub l2 (S "4.") then .GMSH_V4 else .GMSH_V2
    else mshSniff rest

/-- Scan for the first line containing "format" (the inner loop of the
".ply" sniff of MeshHelper::detectFormat). -/
def plySniffLoop : List (List Nat) → MeshFormat
  | [] => .PLY_ASCII
  | l :: rest =>
    if hasSub l (S "format") then
      (if hasSub l (S "ascii") then .PLY_ASCII else .PLY_BINARY)
    else plySniffLoop rest

/-- The ".ply" variant sniff inside MeshHelper::detectFormat: when the first
line is exactly "ply", the first following line containing "format" decides
(ascii vs binary); the default is ASCII. -/
def plySniff (ls : List (List Nat)) : MeshFormat :=
  match ls with
  | [] => .PLY_ASCII
  | l1 :: rest =>
    if l1 = S "ply" then plySniffLoop rest else .PLY_ASCII

/-- The 128-byte header probe at the end of MeshHelper::detectFormat (a
shorter list of magic tokens than the reader's probe). -/
def helperSniff (bs : List Nat) : MeshFormat :=
  let h := cString bs 128
  if hasSub h (S "# vtk") then .VTK_LEGACY
  else if hasSub h (S "<?xml") && hasSub h (S "VTKFile") then .VTK_XML
  else if hasSub h (S "CGNS") then .CGNS
  else if hasSub h (S "$MeshFormat") then .GMSH_V2
  else if hasSub h (S "solid") || hasSub h (S "SOLID") then .STL_ASCII
  else if hasSub h (S "ply") then .PLY_ASCII
  else if hasSub h (S "OFF") then .OFF
  else if hasSub h (S "SU2_MESH") then .SU2
  else .UNKNOWN

/-- MeshHelper::detectFormat: extension first (usable on nonexistent paths),
content sniffing only for the ambiguous extensions and the final fallback
probe. Total: it uses std::filesystem::path::extension, never a raw substr. -/
def detectFormat (fs : FS) (p : String) : MeshFormat :=
  if getFileExtension p = ".vtk" then .VTK_LEGACY
  else if getFileExtension p = ".vtu" || getFileExtension p = ".vtp" ||
      getFileExtension p = ".vti" || getFileExtension p = ".vts" then
    .VTK_XML
  else if getFileExtension p = ".cgns" then .CGNS
  else if getFileExtension p = ".msh" then
    (if fs.pathExists p then
      match fs.openRead p with
      | some bs => mshSniff (linesOf bs)
      | none => .GMSH_V2
    else .GMSH_V2)
  else if getFileExtension p = ".stl" then
    (if fs.pathExists p then
      match fs.openRead p with
      | some bs =>
        if hasSub (cString bs 80) (S "solid") ||
            hasSub (cString bs 80) (S "SOLID") then .STL_ASCII
        else .STL_BINARY
      | none => .STL_BINARY
    else .STL_BINARY)
  else if getFileExtension p = ".obj" then .OBJ
  else if getFileExtension p = ".ply" then
    (if fs.pathExists p then
      match fs.openRead p with
      | some bs => plySniff (linesOf bs)
      | none => .PLY_ASCII
    else .PLY_ASCII)
  else if getFileExtension p = ".off" then .OFF
  else if getFileExtension p = ".su2" then .SU2
  else if fs.pathExists p && fs.isDir p && fs.pathExists (p ++ "/polyMesh") then
    .OPENFOAM
  else
    match fs.openRead p with
    | none => .UNKNOWN
    | some bs => helperSniff bs

/-- MeshHelper::getFormatExtension: canonical output extension per format. -/
def getFormatExtension (format : MeshFormat) : String :=
  match format with
  | .VTK_LEGACY => ".vtk"
  | .VTK_XML => ".vtu"
  | .CGNS => ".cgns"
  | .GMSH_V2 | .GMSH_V4 => ".msh"
  | .SU2 => ".su2"
  | .OPENFOAM => ""
  | .STL_ASCII | .STL_BINARY => ".stl"
  | .OBJ => ".obj"
  | .PLY_ASCII | .PLY_BINARY => ".ply"
  | .OFF => ".off"
  | .UNKNOWN => ""

/-- MeshHelper::detectFormatFromExtension: pure extension switch, usable on
nonexistent files (its try/catch can never fire in the model). -/
def detectFormatFromExtension (p : String) : MeshFormat :=
  if getFileExtension p = ".vtk" then .VTK_LEGACY
  else if getFileExtension p = ".vtu" || getFileExtension p = ".vtp" ||
      getFileExtension p = ".vti" || getFileExtension p = ".vts" then
    .VTK_XML
  else if getFileExtension p = ".cgns" then .CGNS
  else if getFileExtension p = ".msh" then .GMSH_V4
  else if getFileExtension p = ".stl" then .STL_BINARY
  else if getFileExtension p = ".obj" then .OBJ
  else if getFileExtension p = ".ply" then .PLY_ASCII
  else if getFileExtension p = ".off" then .OFF
  else if getFileExtension p = ".su2" then .SU2
  else .UNKNOWN

end MeshHelper

/-! ### Reader results -/

/-- How one reader/conversion call ends: normal success, normal failure with
the out-parameters set, or a C++ exception escaping the function (no
enclosing catch). -/
inductive Outcome where
  | ok
  | err (code : MeshErrorCode) (msg : String)
  | exn (msg : String)
deriving DecidableEq, Repr

/-- The observable result of one reader call: the outcome together with the
final state of the caller-supplied MeshData out-parameter (on failure the
parsers leave whatever partial state they built after clearing). -/
structure ReadResult where
  out : Outcome
  mesh : MeshData
deriving DecidableEq, Repr

namespace MeshReader

/-- Append one triangle record to the mesh: nine new point floats and one
triangle cell whose indices are points.size()/3 (computed before the
append), +1 and +2, each cast size_t → uint32_t. Both STL parsers share
this step. -/
def appendTri (md : MeshData) (ps : List FVal) : MeshData :=
  { md with
    points := md.points ++ ps
    cells := md.cells ++
      [⟨.TRIANGLE,
        [md.points.length / 3 % 2 ^ 32, (md.points.length / 3 + 1) % 2 ^ 32,
         (md.points.length / 3 + 2) % 2 ^ 32]⟩] }

/-- One triangle record of the binary STL loop in MeshReader::readSTLBinary:
12 bytes of normal (ignored), 36 bytes = 9 floats of vertex data, 2 bytes of
attribute count (ignored); each record appends nine point floats and one
triangle cell whose indices are startIndex, startIndex+1, startIndex+2 after
the size_t → uint32_t casts. -/
def stlBinLoop (remaining : Nat) (bs : List Nat) (md : MeshData) : ReadResult :=
  match remaining with
  | 0 =>
    if md.cells.isEmpty then
      ⟨.err .MESH_EMPTY "No triangles found in binary STL file", md⟩
    else ⟨.ok, md.calculateMetadata⟩
  | r + 1 =>
    match takeBytes 12 bs with
    | none =>
      ⟨.err .READ_FAILED "Invalid binary STL file: incomplete normal vector", md⟩
    | some (_, bs1) =>
      match takeBytes 36 bs1 with
      | none =>
        ⟨.err .READ_FAILED "Invalid binary STL file: incomplete vertex data", md⟩
      | some (vtx, bs2) =>
        match takeBytes 2 bs2 with
        | none =>
          ⟨.err .READ_FAILED
            "Invalid binary STL file: incomplete attribute count", md⟩
        | some (_, bs3) =>
          stlBinLoop r bs3 (appendTri md ((words32 vtx).map FVal.bits))

/-- The declared triangle count of a binary STL byte stream: the
little-endian uint32 at offset 80. -/
def stlDeclaredCount (bs : List Nat) : Nat :=
  le32 (bs.getD 80 0) (bs.getD 81 0) (bs.getD 82 0) (bs.getD 83 0)

/-- MeshReader::readSTLBinary on the whole file byte stream (the caller
seeks back to position 0 before delegating): 80-byte header, uint32 LE
triangle count, zero-count and ceiling validation, the
`84 + 50*count ≤ file size` cross-check (all before the reserve calls and
the record loop), then the record loop. -/
def readSTLBinary (bs : List Nat) (md : MeshData) : ReadResult :=
  if bs.length < 80 then
    ⟨.err .READ_FAILED "Invalid binary STL file: incomplete header", md⟩
  else if bs.length < 84 then
    ⟨.err .READ_FAILED "Invalid binary STL file: incomplete triangle count", md⟩
  else if stlDeclaredCount bs = 0 then
    ⟨.err .MESH_EMPTY "Binary STL file contains no triangles", md⟩
  else if 10000000 < stlDeclaredCount bs then
    ⟨.err .READ_FAILED
      ("Binary STL file declares too many triangles: " ++
        toString (stlDeclaredCount bs) ++ " (maximum allowed: 10000000)"), md⟩
  else if bs.length < 84 + 50 * stlDeclaredCount bs then
    ⟨.err .READ_FAILED
      "Binary STL file is too small for declared triangle count", md⟩
  else stlBinLoop (stlDeclaredCount bs) (bs.drop 84) md

/-- The vertex-line parse of one "vertex x y z" line in
MeshReader::readSTLASCII: the line is left-trimmed, must start with
"vertex ", and three float extractions from the rest must succeed. -/
def stlVertexLine (l : List Nat) : Option (List FVal) :=
  let t := dropWs l
  if t.take 7 = S "vertex " then
    match extractFloat (t.drop 7) with
    | none => none
    | some (x, r1) =>
      match extractFloat r1 with
      | none => none
      | some (y, r2) =>
        match extractFloat r2 with
        | none => none
        | some (z, _) => some [x, y, z]
  else none

/-- End-of-scan handling shared by the endsolid branch and end of file in
MeshReader::readSTLASCII. -/
def stlAsciiDone (md : MeshData) : ReadResult :=
  if md.cells.isEmpty then
    ⟨.err .MESH_EMPTY "No triangles found in ASCII STL file", md⟩
  else ⟨.ok, md.calculateMetadata⟩

/-- Failure data for a malformed vertex line (distinguishes a missing
"vertex " keyword from malformed coordinates, as the source does). -/
def stlVertexFail (t : List Nat) : MeshErrorCode × String :=
  if t.take 7 = S "vertex " then
    (.READ_FAILED, "Invalid ASCII STL file: malformed vertex coordinates")
  else (.READ_FAILED, "Invalid ASCII STL file: expected 'vertex'")

/-- The body of one facet in MeshReader::readSTLASCII, after a line whose
left-trim starts with "facet ": the normal floats are parsed from the rest
of that line, then the "outer loop" line, three vertex lines, "endloop" and
"endfacet" (six further lines, trimmed exactly as the source trims them);
when all checks pass, the nine collected floats and the triangle cell are
appended. Early failure returns the error data on the left; success returns
the updated mesh on the right, having consumed exactly six lines.
This is the malformed-normal failure of the facet body. -/
def stlFacetNormFail : (MeshErrorCode × String) ⊕ MeshData :=
  .inl (.READ_FAILED, "Invalid ASCII STL file: malformed normal vector")

/-- The unexpected-end-of-file failure of the facet body. -/
def stlFacetEofFail : (MeshErrorCode × String) ⊕ MeshData :=
  .inl (.READ_FAILED, "Invalid ASCII STL file: unexpected end of file")

/-- The position of the normal-vector stream after the "normal" token is
extracted (the source extracts it into a throwaway string first). -/
def stlAfterNormTok (nstream : List Nat) : List Nat :=
  match extractTok nstream with
  | none => nstream
  | some (_, r) => r

def stlFacetStep (nstream : List Nat) (ls : List (List Nat)) (md : MeshData) :
    (MeshErrorCode × String) ⊕ MeshData :=
  match extractFloat (stlAfterNormTok nstream) with
  | none => stlFacetNormFail
  | some (_, nr1) =>
    match extractFloat nr1 with
    | none => stlFacetNormFail
    | some (_, nr2) =>
      match extractFloat nr2 with
      | none => stlFacetNormFail
      | some _ =>
        match ls with
        | [] => stlFacetEofFail
        | lLoop :: ls1 =>
          if trimR (dropWs lLoop) ≠ S "outer loop" then
            .inl (.READ_FAILED,
              "Invalid ASCII STL file: expected 'outer loop', got '...'")
          else
            match ls1 with
            | [] => stlFacetEofFail
            | v1 :: ls2 =>
              match stlVertexLine v1 with
              | none => .inl (stlVertexFail (dropWs v1))
              | some c1 =>
                match ls2 with
                | [] => stlFacetEofFail
                | v2 :: ls3 =>
                  match stlVertexLine v2 with
                  | none => .inl (stlVertexFail (dropWs v2))
                  | some c2 =>
                    match ls3 with
                    | [] => stlFacetEofFail
                    | v3 :: ls4 =>
                      match stlVertexLine v3 with
                      | none => .inl (stlVertexFail (dropWs v3))
                      | some c3 =>
                        match ls4 with
                        | [] => stlFacetEofFail
                        | lEnd :: ls5 =>
                          if trimR (dropWs lEnd) ≠ S "endloop" then
                            .inl (.READ_FAILED,
                              "Invalid ASCII STL file: expected " ++
                                "'endloop', got '...'")
                          else
                            match ls5 with
                            | [] => stlFacetEofFail
                            | lEnd2 :: _ =>
                              if trimR (dropWs lEnd2) ≠ S "endfacet" then
                                .inl (.READ_FAILED,
                                  "Invalid ASCII STL file: expected " ++
                                    "'endfacet', got '...'")
                              else
                                .inr <|
                                  if (c1 ++ c2 ++ c3).length = 9 then
                                    appendTri md (c1 ++ c2 ++ c3)
                                  else md

/-- The facet loop of MeshReader::readSTLASCII over the remaining lines.
Each iteration: skip empty lines, left-trim; a line starting "facet " opens
a facet handled by stlFacetStep (six further lines consumed on success); a
line starting "endsolid" ends the scan; any other line is skipped. -/
def stlAsciiLoop : List (List Nat) → MeshData → ReadResult
  | [], md => stlAsciiDone md
  | l :: ls, md =>
    if l.isEmpty then stlAsciiLoop ls md
    else if (dropWs l).take 6 = S "facet " then
      match stlFacetStep ((dropWs l).drop 6) ls md with
      | .inl e => ⟨.err e.1 e.2, md⟩
      | .inr md' => stlAsciiLoop (ls.drop 6) md'
    else if (dropWs l).take 8 = S "endsolid" then stlAsciiDone md
    else stlAsciiLoop ls md
termination_by ls _ => ls.length
decreasing_by
  · simp
  · simp [List.length_drop]; omega
  · simp

/-- MeshReader::readSTLASCII on the lines of the file: the first line (the
solid header) is skipped; an empty file fails. -/
def readSTLASCII (ls : List (List Nat)) (md : MeshData) : ReadResult :=
  match ls with
  | [] => ⟨.err .READ_FAILED "Invalid ASCII STL file: empty file", md⟩
  | _ :: rest => stlAsciiLoop rest md

/-- MeshReader::readSTL: clear the out-parameter, check existence, open,
re-detect the format (an std::out_of_range from the substr calls inside
detectFormatFromHeader is caught by the enclosing try and becomes
READ_FAILED), then dispatch on the ASCII/binary variant. -/
def readSTL (fs : FS) (p : String) (md0 : MeshData) : ReadResult :=
  if !fileExists fs p then
    ⟨.err .FILE_NOT_EXIST ("File does not exist: " ++ p), md0.clear⟩
  else
    match fs.openRead p with
    | none => ⟨.err .READ_FAILED ("Failed to open file: " ++ p), md0.clear⟩
    | some bs =>
      match detectFormatFromHeader fs p with
      | .error _ =>
        ⟨.err .READ_FAILED "Error reading STL file: basic_string::substr",
          md0.clear⟩
      | .ok fmt =>
        if fmt ≠ .STL_ASCII && fmt ≠ .STL_BINARY then
          ⟨.err .FORMAT_UNSUPPORTED "Not a valid STL file format", md0.clear⟩
        else if fmt = .STL_ASCII then readSTLASCII (linesOf bs) md0.clear
        else readSTLBinary bs md0.clear

/-! ### OBJ reader -/

/-- Whitespace tokenization of a character stream: the sequence of tokens
successive `stream >> (std::string&)` extractions return. -/
def tokenizeAux : List Nat → List Nat → List (List Nat)
  | [], acc => if acc.isEmpty then [] else [acc.reverse]
  | b :: t, acc =>
    if isSpaceB b then
      (if acc.isEmpty then tokenizeAux t [] else acc.reverse :: tokenizeAux t [])
    else tokenizeAux t (b :: acc)

/-- All whitespace-separated tokens of a stream. -/
def tokenize (s : List Nat) : List (List Nat) := tokenizeAux s []

/-- One face/line vertex reference of MeshReader::readOBJ: everything before
the first slash goes through std::stoi, 1 is subtracted in int arithmetic
and the result is cast to uint32_t; none models the stoi exception
(invalid_argument / out_of_range) that aborts the whole read. -/
def objFaceIdx (tok : List Nat) : Option Nat :=
  let idxStr :=
    match tok.findIdx? (fun b => b = 47) with
    | none => tok
    | some i => tok.take i
  match stoiM idxStr with
  | none => none
  | some v => some (((v - 1) % (2 ^ 32 : Int)).toNat)

/-- The `while (stream >> vertexRef)` loop over one face/line statement. -/
def objIdxList : List (List Nat) → List Nat → Option (List Nat)
  | [], acc => some acc
  | tok :: rest, acc =>
    match objFaceIdx tok with
    | none => none
    | some i => objIdxList rest (acc ++ [i])

/-- Cell type chosen for a face with the given number of indices (readOBJ,
readPLY and readOFF all use this 3/4/other switch). -/
def faceCellType (n : Nat) : VtkCellType :=
  if n = 3 then .TRIANGLE else if n = 4 then .QUAD else .POLYGON

/-- The line scan of MeshReader::readOBJ: vertices and faces accumulate in
local vectors, while "l " statements append LINE cells directly to the
mesh. A stoi exception aborts the scan (error carries the mesh state at the
throw point, which the enclosing catch hands back). -/
def objScan : List (List Nat) → MeshData → List FVal → List (List Nat) →
    Except (MeshData × String) (MeshData × List FVal × List (List Nat))
  | [], md, vs, fc => .ok (md, vs, fc)
  | l :: ls, md, vs, fc =>
    if l.isEmpty then objScan ls md vs fc
    else
      let t := dropWs l
      if t.isEmpty || t.headD 0 = 35 then objScan ls md vs fc
      else if t.take 2 = S "v " then
        match extractFloat (t.drop 2) with
        | none => objScan ls md vs fc
        | some (x, r1) =>
          match extractFloat r1 with
          | none => objScan ls md vs fc
          | some (y, r2) =>
            match extractFloat r2 with
            | none => objScan ls md vs fc
            | some (z, _) => objScan ls md (vs ++ [x, y, z]) fc
      else if t.take 2 = S "f " then
        match objIdxList (tokenize (t.drop 2)) [] with
        | none => .error (md, "Error reading OBJ file: stoi")
        | some idxs =>
          objScan ls md vs (if idxs.isEmpty then fc else fc ++ [idxs])
      else if t.take 2 = S "l " then
        match objIdxList (tokenize (t.drop 2)) [] with
        | none => .error (md, "Error reading OBJ file: stoi")
        | some idxs =>
          objScan ls
            (if idxs.isEmpty then md
             else { md with cells := md.cells ++ [⟨.LINE, idxs⟩] })
            vs fc
      else objScan ls md vs fc

/-- The mesh state of MeshReader::readOBJ after the scan: the accumulated
vertex floats become the point array and the kept faces (at least three
indices, typed by arity) are appended after any LINE cells the scan already
added. -/
def objWithCells (md1 : MeshData) (vs : List FVal) (fcs : List (List Nat)) :
    MeshData :=
  { md1 with
    points := vs
    cells := md1.cells ++
      (fcs.filter (fun is => 3 ≤ is.length)).map
        (fun is => ⟨faceCellType is.length, is⟩) }

/-- MeshReader::readOBJ. -/
def readOBJ (fs : FS) (p : String) (md0 : MeshData) : ReadResult :=
  if !fileExists fs p then
    ⟨.err .FILE_NOT_EXIST ("File does not exist: " ++ p), md0.clear⟩
  else
    match fs.openRead p with
    | none => ⟨.err .READ_FAILED ("Failed to open file: " ++ p), md0.clear⟩
    | some bs =>
      match objScan (linesOf bs) md0.clear [] [] with
      | .error (mdE, msg) => ⟨.err .READ_FAILED msg, mdE⟩
      | .ok (md1, vs, fcs) =>
        if vs.isEmpty then
          ⟨.err .MESH_EMPTY "No vertices found in OBJ file", md1⟩
        else if vs.length % 3 ≠ 0 then
          ⟨.err .READ_FAILED "Invalid vertex data in OBJ file", md1⟩
        else if (objWithCells md1 vs fcs).cells.isEmpty then
          ⟨.err .MESH_EMPTY "No valid cells found in OBJ file",
            objWithCells md1 vs fcs⟩
        else ⟨.ok, (objWithCells md1 vs fcs).calculateMetadata⟩

/-! ### PLY reader -/

/-- The header state of MeshReader::readPLY. -/
structure PlyHeader where
  isBinary : Bool := false
  vertexCount : Nat := 0
  faceCount : Nat := 0
deriving DecidableEq, Repr

/-- The header-line loop of MeshReader::readPLY, over the successive
getline results: lines are read until "end_header"; a "format " line must
name a supported encoding; "element " lines record vertex/face counts (the
count is whatever the unchecked uint32 extraction stores); running out of
lines without the sentinel is a hard failure. Returns the header state and
the stream contents after the sentinel line. -/
def plyHeaderScan : List (List Nat × List Nat) → PlyHeader →
    Except (MeshErrorCode × String) (PlyHeader × List Nat)
  | [], _ => .error (.READ_FAILED, "Invalid PLY file: missing 'end_header'")
  | (line, rest) :: more, st =>
    let t := dropWs line
    if t.isEmpty then plyHeaderScan more st
    else if t.take 7 = S "format " then
      let fmt :=
        match extractTok (t.drop 7) with
        | none => []
        | some (w, _) => w
      if fmt = S "binary_little_endian" then
        plyHeaderScan more { st with isBinary := true }
      else if fmt = S "binary_big_endian" then
        plyHeaderScan more { st with isBinary := true }
      else if fmt = S "ascii" then
        plyHeaderScan more { st with isBinary := false }
      else .error (.READ_FAILED, "Invalid PLY file: unsupported format")
    else if t.take 8 = S "element " then
      match extractTok (t.drop 8) with
      | none => plyHeaderScan more st
      | some (name, r1) =>
        let cnt := (extractU32 r1).1
        if name = S "vertex" then
          plyHeaderScan more { st with vertexCount := cnt }
        else if name = S "face" then
          plyHeaderScan more { st with faceCount := cnt }
        else plyHeaderScan more st
    else if t = S "end_header" then .ok (st, rest)
    else plyHeaderScan more st

/-- The vertex loop of MeshReader::readPLY: three raw 4-byte float reads per
vertex, each failing read aborting the whole parse. -/
def plyVertexLoop : Nat → List Nat → List FVal →
    Except (MeshErrorCode × String) (List FVal × List Nat)
  | 0, bs, acc => .ok (acc, bs)
  | n + 1, bs, acc =>
    match takeBytes 4 bs with
    | none => .error (.READ_FAILED, "Invalid PLY file: incomplete vertex data")
    | some (xb, r1) =>
      match takeBytes 4 r1 with
      | none => .error (.READ_FAILED, "Invalid PLY file: incomplete vertex data")
      | some (yb, r2) =>
        match takeBytes 4 r2 with
        | none =>
          .error (.READ_FAILED, "Invalid PLY file: incomplete vertex data")
        | some (zb, r3) =>
          plyVertexLoop n r3
            (acc ++
              [FVal.bits (le32 (xb.getD 0 0) (xb.getD 1 0) (xb.getD 2 0) (xb.getD 3 0)),
               FVal.bits (le32 (yb.getD 0 0) (yb.getD 1 0) (yb.getD 2 0) (yb.getD 3 0)),
               FVal.bits (le32 (zb.getD 0 0) (zb.getD 1 0) (zb.getD 2 0) (zb.getD 3 0))])

/-- The face loop of MeshReader::readPLY: a 1-byte vertex count then that
many native 4-byte indices; a short read breaks out gracefully (the
already-collected cells stand); faces with fewer than three vertices are
read but produce no cell. The int→uint32 cast preserves the 32-bit
pattern. -/
def plyFaceLoop : Nat → List Nat → List Cell → List Cell
  | 0, _, acc => acc
  | n + 1, bs, acc =>
    match takeBytes 1 bs with
    | none => acc
    | some (cb, r1) =>
      let cnt := cb.headD 0 % 256
      match takeBytes (4 * cnt) r1 with
      | none => acc
      | some (ib, r2) =>
        if 3 ≤ cnt then
          plyFaceLoop n r2 (acc ++ [⟨faceCellType cnt, words32 ib⟩])
        else plyFaceLoop n r2 acc

/-- MeshReader::readPLY. -/
def readPLY (fs : FS) (p : String) (md0 : MeshData) : ReadResult :=
  if !fileExists fs p then
    ⟨.err .FILE_NOT_EXIST ("File does not exist: " ++ p), md0.clear⟩
  else
    match fs.openRead p with
    | none => ⟨.err .READ_FAILED ("Failed to open file: " ++ p), md0.clear⟩
    | some bs =>
      match getlineB bs with
      | none => ⟨.err .READ_FAILED "Invalid PLY file: empty file", md0.clear⟩
      | some (l1, rest) =>
        if l1 ≠ S "ply" then
          ⟨.err .READ_FAILED "Invalid PLY file: missing 'ply' header", md0.clear⟩
        else
          match plyHeaderScan (lineSplits rest) {} with
          | .error e => ⟨.err e.1 e.2, md0.clear⟩
          | .ok (hdr, body) =>
            if hdr.vertexCount = 0 then
              ⟨.err .MESH_EMPTY "No vertices found in PLY file", md0.clear⟩
            else
              match plyVertexLoop hdr.vertexCount body [] with
              | .error e => ⟨.err e.1 e.2, md0.clear⟩
              | .ok (vts, body2) =>
                ⟨.ok, ({ md0.clear with
                    points := vts
                    cells := plyFaceLoop hdr.faceCount body2 [] }).calculateMetadata⟩

/-! ### OFF reader -/

/-- The vertex loop of MeshReader::readOFF: three float extractions into
locals per vertex, pushed onto meshData.points only after all three
succeed; on a failed extraction the completed triples so far remain and the
failing vertex contributes nothing. -/
def offVertexLoop : Nat → List Nat → List FVal →
    Except (List FVal) (List FVal × List Nat)
  | 0, s, acc => .ok (acc, s)
  | n + 1, s, acc =>
    match extractFloat s with
    | none => .error acc
    | some (x, r1) =>
      match extractFloat r1 with
      | none => .error acc
      | some (y, r2) =>
        match extractFloat r2 with
        | none => .error acc
        | some (z, r3) => offVertexLoop n r3 (acc ++ [x, y, z])

/-- The per-face index loop of MeshReader::readOFF (indices are ints cast to
uint32). -/
def offFaceIdxLoop : Nat → List Nat → List Nat →
    Option (List Nat × List Nat)
  | 0, s, acc => some (acc, s)
  | n + 1, s, acc =>
    match extractIntC s with
    | none => none
    | some (v, r) => offFaceIdxLoop n r (acc ++ [((v % (2 ^ 32 : Int))).toNat])

/-- The face loop of MeshReader::readOFF: a leading int vertex count
(negative counts make `pointIndices.reserve` throw std::length_error, which
nothing in readOFF catches), then that many indices; each failure names its
stage. -/
def offFaceLoop : Nat → List Nat → List Cell →
    Except (Outcome × List Cell) (List Cell × List Nat)
  | 0, s, acc => .ok (acc, s)
  | n + 1, s, acc =>
    match extractIntC s with
    | none =>
      .error (.err .READ_FAILED "Failed to read face vertex count", acc)
    | some (nfv, r) =>
      if nfv < 0 then .error (.exn "std::length_error", acc)
      else
        match offFaceIdxLoop nfv.toNat r [] with
        | none =>
          .error (.err .READ_FAILED "Failed to read face vertex index", acc)
        | some (idxs, r2) =>
          offFaceLoop n r2 (acc ++ [⟨faceCellType nfv.toNat, idxs⟩])

/-- The successful epilogue of MeshReader::readOFF: recompute the metadata,
then stamp the format field with OFF. -/
def offFinish (md : MeshData) : MeshData :=
  { md.calculateMetadata with metadata :=
    { md.calculateMetadata.metadata with format := .OFF } }

/-- MeshReader::readOFF: header line with exact "OFF" magic (else
FORMAT_VERSION_INVALID), vertex/face/edge counts, vertex block, face block.
A negative vertex count makes `points.reserve` throw std::length_error
(uncaught), and a vertex count above INT_MAX/3 makes `numVertices * 3`
overflow signed int (undefined behaviour) — both modelled as escaping
exceptions. On success metadata is recomputed and format is set to OFF. -/
def readOFF (fs : FS) (p : String) (md0 : MeshData) : ReadResult :=
  match fs.openRead p with
  | none =>
    ⟨.err .FILE_NOT_EXIST "File not found or cannot be opened", md0.clear⟩
  | some bs =>
    match getlineB bs with
    | none => ⟨.err .READ_FAILED "Failed to read OFF header", md0.clear⟩
    | some (hdr, rest) =>
      if (match extractTok hdr with
          | none => ([] : List Nat)
          | some (w, _) => w) ≠ S "OFF" then
        ⟨.err .FORMAT_VERSION_INVALID "Invalid OFF header. Expected 'OFF'",
          md0.clear⟩
      else
        match extractIntC rest with
        | none =>
          ⟨.err .READ_FAILED "Failed to read vertex, face, edge counts",
            md0.clear⟩
        | some (nv, r1) =>
          match extractIntC r1 with
          | none =>
            ⟨.err .READ_FAILED "Failed to read vertex, face, edge counts",
              md0.clear⟩
          | some (nf, r2) =>
            match extractIntC r2 with
            | none =>
              ⟨.err .READ_FAILED "Failed to read vertex, face, edge counts",
                md0.clear⟩
            | some (_, r3) =>
              if nv < 0 then ⟨.exn "std::length_error", md0.clear⟩
              else if (2 ^ 31 - 1 : Int) < 3 * nv then
                ⟨.exn "undefined behaviour: signed overflow in reserve size",
                  md0.clear⟩
              else
                match offVertexLoop nv.toNat r3 [] with
                | .error partialPts =>
                  ⟨.err .READ_FAILED "Failed to read vertex coordinates",
                    { md0.clear with points := partialPts }⟩
                | .ok (pts, r4) =>
                  if nf < 0 then
                    ⟨.exn "std::length_error",
                      { md0.clear with points := pts }⟩
                  else
                    match offFaceLoop nf.toNat r4 [] with
                    | .error (o, partialCells) =>
                      ⟨o, { md0.clear with
                          points := pts
                          cells := partialCells }⟩
                    | .ok (cells, _) =>
                      ⟨.ok, offFinish ({ md0.clear with
                          points := pts
                          cells := cells })⟩

/-! ### Stub readers and library-backed readers -/

/-- MeshReader::readSU2: unimplemented stub; note it does not clear the
out-parameter. -/
def readSU2 (md0 : MeshData) : ReadResult :=
  ⟨.err .FORMAT_VERSION_INVALID "SU2 format read not implemented", md0⟩

/-- MeshReader::readOpenFOAM: unimplemented stub; does not clear the
out-parameter. -/
def readOpenFOAM (md0 : MeshData) : ReadResult :=
  ⟨.err .FORMAT_VERSION_INVALID "OpenFOAM format read not implemented", md0⟩

/-- The behaviour of the external-library bodies of readVTK, readCGNS and
readGmsh (VTK readers, the optional CGNS reader, the optional Gmsh C API):
each is an unknown but deterministic function of the detected format, the
path and the file contents, producing the outcome and the mesh contents it
builds after the initial clear. Theorems about these readers quantify over
the oracle, so they hold for every build configuration and library
behaviour. -/
structure LibOracle where
  vtkRead : MeshFormat → String → Option (List Nat) → Outcome × MeshData
  cgnsRead : String → Option (List Nat) → Outcome × MeshData
  gmshRead : String → Option (List Nat) → Outcome × MeshData

/-- MeshReader::readVTK: clears the out-parameter, calls
detectFormatFromHeader outside any try (a substr throw escapes), then runs
the VTK-library machinery (oracle). -/
def readVTK (o : LibOracle) (fs : FS) (p : String) (md0 : MeshData) :
    ReadResult :=
  let md := md0.clear
  match detectFormatFromHeader fs p with
  | .error _ => ⟨.exn "std::out_of_range", md⟩
  | .ok fmt =>
    let r := o.vtkRead fmt p (fs.openRead p)
    ⟨r.1, r.2⟩

/-- MeshReader::readCGNS: clears the out-parameter then runs the CGNS
machinery (oracle; a build without HAVE_CGNS is the oracle constantly
returning DEPENDENCY_MISSING with the cleared mesh). -/
def readCGNS (o : LibOracle) (fs : FS) (p : String) (_md0 : MeshData) :
    ReadResult :=
  let r := o.cgnsRead p (fs.openRead p)
  ⟨r.1, r.2⟩

/-- MeshReader::readGmsh: clears the out-parameter then runs the Gmsh C API
machinery (oracle). -/
def readGmsh (o : LibOracle) (fs : FS) (p : String) (_md0 : MeshData) :
    ReadResult :=
  let r := o.gmshRead p (fs.openRead p)
  ⟨r.1, r.2⟩

/-- MeshReader::readAuto: existence check, format detection (an exception
from the substr calls inside detectFormatFromHeader escapes readAuto — it
has no try block), then dispatch to the per-format reader. -/
def readAuto (o : LibOracle) (fs : FS) (p : String) (md0 : MeshData) :
    ReadResult :=
  if !fileExists fs p then
    ⟨.err .FILE_NOT_EXIST ("File does not exist: " ++ p), md0⟩
  else
    match detectFormatFromHeader fs p with
    | .error _ => ⟨.exn "std::out_of_range", md0⟩
    | .ok fmt =>
      match fmt with
      | .UNKNOWN =>
        ⟨.err .FORMAT_UNSUPPORTED ("Cannot detect file format: " ++ p), md0⟩
      | .VTK_LEGACY | .VTK_XML => readVTK o fs p md0
      | .CGNS => readCGNS o fs p md0
      | .GMSH_V2 | .GMSH_V4 => readGmsh o fs p md0
      | .STL_ASCII | .STL_BINARY => readSTL fs p md0
      | .OBJ => readOBJ fs p md0
      | .PLY_ASCII | .PLY_BINARY => readPLY fs p md0
      | .OFF => readOFF fs p md0
      | .SU2 => readSU2 md0
      | .OPENFOAM => readOpenFOAM md0

end MeshReader

/-! ### Writers and the conversion orchestrator -/

/-- FormatWriteOptions from MeshTypes.h with its documented defaults. -/
structure FormatWriteOptions where
  isBinary : Bool := true
  precision : Int := 6
  compress : Bool := false
  vtkPreserveAllAttributes : Bool := true
  cgnsBaseName : String := "Base1"
  cgnsZoneName : String := "Zone1"
  cgnsDimension : Int := 3
  gmshPreservePhysicalGroups : Bool := true
  stlSolidName : String := "Solid"
deriving DecidableEq, Repr

/-- Whether the build defines HAVE_CGNS / HAVE_GMSH (the repository's
default build has neither optional dependency). -/
def HAVE_CGNS : Bool := false

/-- Whether the build defines HAVE_GMSH. -/
def HAVE_GMSH : Bool := false

namespace MeshWriter

/-- Filesystem effects a writer call can attempt, in order. -/
inductive WEffect where
  | dirCreate (d : String)
  | fileWrite (p : String)
deriving DecidableEq, Repr

/-- MeshWriter::isMeshEmpty delegates to MeshData::isEmpty. -/
def isMeshEmpty (m : MeshData) : Bool := m.isEmpty

/-- MeshWriter::ensureDirectoryExists: parent of the output path; an empty
parent needs no creation; create_directories failure is caught and reported
as false. Returns (success, new filesystem, effects attempted). -/
def ensureDirectoryExists (fs : FS) (p : String) : Bool × FS × List WEffect :=
  let dir := parentPath p
  if dir = "" then (true, fs, [])
  else if fs.pathExists dir then (true, fs, [])
  else
    let r := fs.mkdirs dir
    (r.1, r.2, [.dirCreate dir])

/-- The per-format writer bodies of MeshWriter.cpp. Every concrete writer in
the source is an unimplemented stub returning FORMAT_VERSION_INVALID (CGNS
and Gmsh first fail with DEPENDENCY_MISSING when built without the optional
library); none of them opens the output file. -/
def writeBody (fmt : MeshFormat) : Outcome :=
  match fmt with
  | .VTK_LEGACY | .VTK_XML =>
    .err .FORMAT_VERSION_INVALID "VTK format write not implemented"
  | .CGNS =>
    if !HAVE_CGNS then .err .DEPENDENCY_MISSING "CGNS dependency library missing"
    else .err .FORMAT_VERSION_INVALID "CGNS format write not implemented"
  | .GMSH_V2 | .GMSH_V4 =>
    if !HAVE_GMSH then .err .DEPENDENCY_MISSING "Gmsh dependency library missing"
    else .err .FORMAT_VERSION_INVALID "Gmsh format write not implemented"
  | .STL_ASCII | .STL_BINARY =>
    .err .FORMAT_VERSION_INVALID "STL format write not implemented"
  | .OBJ => .err .FORMAT_VERSION_INVALID "OBJ format write not implemented"
  | .PLY_ASCII | .PLY_BINARY =>
    .err .FORMAT_VERSION_INVALID "PLY format write not implemented"
  | .OFF => .err .FORMAT_VERSION_INVALID "OFF format write not implemented"
  | .SU2 => .err .FORMAT_VERSION_INVALID "SU2 format write not implemented"
  | .OPENFOAM =>
    .err .FORMAT_VERSION_INVALID "OpenFOAM format write not implemented"
  | .UNKNOWN => .err .FORMAT_UNSUPPORTED "Format not supported"

/-- MeshWriter::write: empty-mesh refusal first, then parent-directory
creation, then the per-format writer. Returns the outcome, the filesystem
after the call, and the filesystem effects attempted in order. -/
def write (meshData : MeshData) (filePath : String) (targetFormat : MeshFormat)
    (_options : FormatWriteOptions) (fs : FS) :
    Outcome × FS × List WEffect :=
  if isMeshEmpty meshData then
    (.err .MESH_EMPTY "Mesh data is empty", fs, [])
  else
    let d := ensureDirectoryExists fs filePath
    if !d.1 then
      (.err .WRITE_FAILED "Cannot create output directory", d.2.1, d.2.2)
    else (writeBody targetFormat, d.2.1, d.2.2)

end MeshWriter

namespace MeshConverter

/-- MeshConverter::generateDstFilePath: source stem + canonical extension of
the target format, joined onto the destination directory. -/
def generateDstFilePath (src dstDir : String) (dstFormat : MeshFormat) : String :=
  joinPath dstDir (stemOf src ++ MeshHelper.getFormatExtension dstFormat)

/-- MeshConverter::ensureDstDirExists. -/
def ensureDstDirExists (fs : FS) (d : String) : Bool × FS :=
  if !fs.pathExists d then fs.mkdirs d else (true, fs)

/-- MeshConverter::convert: source existence, destination-directory
creation, readAuto (srcFormat is ignored by the source: both branches call
readAuto), then MeshWriter::write, with the stage prefixes on failure
messages. Returns the outcome and the filesystem after the call. -/
def convert (o : MeshReader.LibOracle) (srcFilePath dstFilePath : String)
    (_srcFormat dstFormat : MeshFormat) (writeOptions : FormatWriteOptions)
    (fs : FS) : Outcome × FS :=
  if !fs.pathExists srcFilePath then
    (.err .FILE_NOT_EXIST ("Source file does not exist: " ++ srcFilePath), fs)
  else
    let dstDir := parentPath dstFilePath
    let afterDir : Outcome × FS :=
      if dstDir ≠ "" && !fs.pathExists dstDir then
        let r := fs.mkdirs dstDir
        if !r.1 then
          (.err .WRITE_FAILED ("Cannot create target directory: " ++ dstDir), fs)
        else (.ok, r.2)
      else (.ok, fs)
    match afterDir with
    | (.err c m, fs1) => (.err c m, fs1)
    | (.exn m, fs1) => (.exn m, fs1)
    | (.ok, fs1) =>
      let rr := MeshReader.readAuto o fs1 srcFilePath {}
      match rr.out with
      | .err c m => (.err c ("Read failed: " ++ m), fs1)
      | .exn m => (.exn m, fs1)
      | .ok =>
        let wr := MeshWriter.write rr.mesh dstFilePath dstFormat writeOptions fs1
        match wr.1 with
        | .err c m => (.err c ("Write failed: " ++ m), wr.2.1)
        | .exn m => (.exn m, wr.2.1)
        | .ok => (.ok, wr.2.1)

/-- One entry of the batch error map. -/
abbrev ErrEntry := String × MeshErrorCode × String

/-- The per-file worker body of MeshConverter::batchConvert, folded over the
source paths. The C++ version runs the workers on a bounded thread pool;
each worker performs an independent convert and, under one mutex, either
increments the success counter or inserts its error entry, so the final
counter and map content are those of this sequential fold (the map is keyed
by source path; entries here are kept in input order). -/
def batchLoop (o : MeshReader.LibOracle) (dstDir : String)
    (dstFormat : MeshFormat) (writeOptions : FormatWriteOptions) :
    List String → FS → Nat → List ErrEntry →
    Except String (Nat × List ErrEntry × FS)
  | [], fs, n, em => .ok (n, em, fs)
  | src :: rest, fs, n, em =>
    let dst := generateDstFilePath src dstDir dstFormat
    let r := convert o src dst .UNKNOWN dstFormat writeOptions fs
    match r.1 with
    | .ok => batchLoop o dstDir dstFormat writeOptions rest r.2 (n + 1) em
    | .err c m =>
      batchLoop o dstDir dstFormat writeOptions rest r.2 n (em ++ [(src, c, m)])
    | .exn m => .error m

/-- MeshConverter::batchConvert: create the destination directory once up
front (on failure every input is recorded failed and nothing runs), then
one convert per source file; returns the success count and the error map.
An exception escaping a worker (only possible through the unguarded substr
calls of detectFormatFromHeader) terminates the process in C++
(std::terminate), modelled as the Except error. -/
def batchConvert (o : MeshReader.LibOracle) (srcFilePaths : List String)
    (dstDir : String) (dstFormat : MeshFormat)
    (writeOptions : FormatWriteOptions) (fs : FS) :
    Except String (Nat × List ErrEntry × FS) :=
  let e := ensureDstDirExists fs dstDir
  if !e.1 then
    .ok (0,
     srcFilePaths.map
       (fun p => (p, .WRITE_FAILED, "Cannot create target directory: " ++ dstDir)),
     fs)
  else batchLoop o dstDir dstFormat writeOptions srcFilePaths e.2 0 []

end MeshConverter

/-! ### Invariants and spec-side mappings -/

/-- Invariant 1 of the spec's data model: the flat point array length is a
multiple of 3. -/
def meshPtsInv (m : MeshData) : Prop := m.points.length % 3 = 0

/-- Invariant 2 of the spec's data model: every index of every cell is
strictly below the point count. -/
def meshIdxInv (m : MeshData) : Prop :=
  ∀ c ∈ m.cells, ∀ i ∈ c.pointIndices, i < m.points.length / 3

instance (m : MeshData) : Decidable (meshPtsInv m) := by
  unfold meshPtsInv; infer_instance

instance (m : MeshData) : Decidable (meshIdxInv m) := by
  unfold meshIdxInv; infer_instance

/-- Spec-side mapping (section 4.1 of the spec): the extensions that
"unambiguously map to one format" — those whose extension alone fixes a
single on-disk encoding (.stl/.ply/.msh are shared by two variants each and
are excluded). Used to state the fast-path detection claim. -/
def extUnambiguous (ext : String) : Option MeshFormat :=
  if ext = ".vtk" then some .VTK_LEGACY
  else if ext = ".vtu" then some .VTK_XML
  else if ext = ".vtp" then some .VTK_XML
  else if ext = ".vti" then some .VTK_XML
  else if ext = ".vts" then some .VTK_XML
  else if ext = ".cgns" then some .CGNS
  else if ext = ".obj" then some .OBJ
  else if ext = ".off" then some .OFF
  else if ext = ".su2" then some .SU2
  else none

/-- The "no extension matches" condition of
MeshReader::detectFormatFromHeader for a claim about its fall-through: the
lowercased path ends in none of the recognized extensions (the four-byte
suffix and the five-byte ".cgns" suffix the source compares). -/
def noExtMatch (p : String) : Prop :=
  (⟨(lowerStr p).data.drop (p.data.length - 4)⟩ : String) ∉
      ([".vtk", ".vtu", ".vtp", ".vti", ".vts", ".msh", ".stl", ".obj",
        ".ply", ".off", ".su2"] : List String) ∧
  (⟨(lowerStr p).data.drop (p.data.length - 5)⟩ : String) ≠ ".cgns"

instance (p : String) : Decidable (noExtMatch p) := by
  unfold noExtMatch; infer_instance

/-- The "no magic token matches" condition of the 128-byte header probe:
the probe C-string contains none of the sniffed tokens and the first four
raw bytes are not "CGNS". (The absence of "<?xml" and of "v " suffices to
defeat the two conjunctive checks.) -/
def probeNoMatch (bs : List Nat) : Prop :=
  hasSub (cString bs 128) (S "# vtk") = false ∧
  hasSub (cString bs 128) (S "<?xml") = false ∧
  hasSub (cString bs 128) (S "CGNS") = false ∧
  ¬(bs.headD 0 = 67 ∧ bs.getD 1 0 = 71 ∧ bs.getD 2 0 = 78 ∧
    bs.getD 3 0 = 83) ∧
  hasSub (cString bs 128) (S "$MeshFormat") = false ∧
  hasSub (cString bs 128) (S "solid") = false ∧
  hasSub (cString bs 128) (S "SOLID") = false ∧
  hasSub (cString bs 128) (S "v ") = false ∧
  hasSub (cString bs 128) (S "ply") = false ∧
  hasSub (cString bs 128) (S "OFF") = false ∧
  hasSub (cString bs 128) (S "SU2_MESH") = false

instance (bs : List Nat) : Decidable (probeNoMatch bs) := by
  unfold probeNoMatch; infer_instance

/-! ### Concrete fixtures for witnesses and counterexamples -/

/-- An existing readable file with an unrecognized extension and no magic
token in its contents. -/
def fsProbe : FS := { files := [("hello", S "some unrecognized text content")] }

/-- An existing file whose whole path is the four-character extension
".vtk". -/
def fsDotVtk : FS := { files := [(".vtk", S "x")] }

/-- An existing empty file with an unrecognized extension. -/
def fsEmptyFile : FS := { files := [("empty.bin", [])] }

/-- An OBJ file with four vertices and one "f 1 2 3 4" face. -/
def objQuadFile : List Nat :=
  S "v 0 0 0\nv 1 0 0\nv 1 1 0\nv 0 1 0\nf 1 2 3 4\n"

/-- The same quad with reference-style suffixes after slashes. -/
def objQuadSlashFile : List Nat :=
  S "v 0 0 0\nv 1 0 0\nv 1 1 0\nv 0 1 0\nf 1/5 2/6 3/7 4/8\n"

/-- An OBJ file with three vertices and a face referencing vertex 4: the
parsed cell holds index 3 with only 3 points present. -/
def objOutOfRangeFile : List Nat :=
  S "v 0 0 0\nv 1 0 0\nv 0 1 0\nf 1 2 4\n"

/-- A structurally valid one-triangle binary STL file (84 + 50 bytes). -/
def stlBinOkFile : List Nat :=
  List.replicate 80 0 ++ [1, 0, 0, 0] ++ List.replicate 50 7

/-- A binary STL file declaring 2 triangles but holding bytes for one. -/
def stlBinTruncFile : List Nat :=
  List.replicate 80 0 ++ [2, 0, 0, 0] ++ List.replicate 50 7

/-- A binary STL file with a zero triangle count. -/
def stlBinZeroFile : List Nat := List.replicate 80 0 ++ [0, 0, 0, 0]

/-- A one-facet ASCII STL file. -/
def stlAsciiOkFile : List Nat :=
  S ("solid s\nfacet normal 0 0 0\nouter loop\nvertex 0 0 0\nvertex 1 0 0\n" ++
     "vertex 0 1 0\nendloop\nendfacet\nendsolid s\n")

/-- A binary little-endian PLY file with one vertex and one triangle face. -/
def plyOneFile : List Nat :=
  S ("ply\nformat binary_little_endian 1.0\nelement vertex 1\n" ++
     "element face 1\nend_header\n") ++
  [0, 0, 128, 63, 0, 0, 0, 64, 0, 0, 64, 64] ++
  [3, 0, 0, 0, 0, 1, 0, 0, 0, 2, 0, 0, 0]

/-- A PLY file whose header declares zero vertices. -/
def plyZeroFile : List Nat :=
  S "ply\nformat ascii 1.0\nelement vertex 0\nend_header\n"

/-- An OFF file with three vertices and one triangle. -/
def offOkFile : List Nat := S "OFF\n3 1 0\n0 0 0\n1 0 0\n0 1 0\n3 0 1 2\n"

/-- A fixture filesystem holding one file of each kind plus directories. -/
def fsFix : FS :=
  { files :=
      [("a.obj", objQuadFile), ("slash.obj", objQuadSlashFile),
       ("bad.obj", objOutOfRangeFile), ("t.stl", stlBinOkFile),
       ("u.stl", stlBinTruncFile), ("z.stl", stlBinZeroFile),
       ("m.ply", plyOneFile), ("z.ply", plyZeroFile), ("m.off", offOkFile),
       ("abc", S "hello")],
    dirs := ["out"] }

/-- A library oracle for builds where the delegated VTK/CGNS/Gmsh codecs
fail; the concrete conversion scenarios never dispatch to it. -/
def nullOracle : MeshReader.LibOracle :=
  ⟨fun _ _ _ => (.err .READ_FAILED "", {}),
   fun _ _ => (.err .READ_FAILED "", {}),
   fun _ _ => (.err .READ_FAILED "", {})⟩

/-- The batch-conversion fixture: two readable OBJ meshes and one missing
path, with existing source and destination directories. -/
def fsBatch : FS :=
  { files := [("in/a.obj", objQuadFile), ("in/b.obj", objQuadSlashFile)],
    dirs := ["in", "out"] }

/-- A mesh with three points and no cells (zero usable cells). -/
def ptsOnlyMesh : MeshData := { points := [.bits 0, .bits 0, .bits 0] }

/-! ### Helper lemmas -/

/-- calculateMetadata never changes the point array. -/
theorem calcMeta_points (m : MeshData) : m.calculateMetadata.points = m.points :=
  rfl

/-- calculateMetadata never changes the cell list. -/
theorem calcMeta_cells (m : MeshData) : m.calculateMetadata.cells = m.cells :=
  rfl

/-- A path that can be opened for reading exists. -/
theorem openRead_pathExists {fs : FS} {p : String} {bs : List Nat}
    (h : fs.openRead p = some bs) : fs.pathExists p = true := by
  unfold FS.openRead at h
  unfold FS.pathExists
  cases hf : fs.files.find? (fun e => e.1 = p) with
  | none => rw [hf] at h; exact absurd h (by simp)
  | some e =>
    have hm := List.find?_some hf
    have hmem := List.mem_of_find?_eq_some hf
    have : fs.files.any (fun e => e.1 = p) = true :=
      List.any_eq_true.mpr ⟨e, hmem, hm⟩
    rw [this, Bool.true_or]

/-! ### C3: truncated binary STL files are rejected with ReadFailed -/

/-- C3: for a binary STL byte stream long enough to carry a declared count,
if `84 + 50 * count` exceeds the actual file size, readSTLBinary fails with
READ_FAILED (either the ceiling message or the size-check message) and the
caller's mesh is returned untouched — never a partially-filled mesh. The
size cross-check sits before the reserve calls and the record loop in the
definition. -/
theorem C3_truncated_stl_read_failed (bs : List Nat) (md : MeshData)
    (h84 : 84 ≤ bs.length)
    (htr : bs.length < 84 + 50 * MeshReader.stlDeclaredCount bs) :
    ∃ msg, MeshReader.readSTLBinary bs md = ⟨.err .READ_FAILED msg, md⟩ := by
  unfold MeshReader.readSTLBinary
  rw [if_neg (by omega), if_neg (by omega)]
  have hN : ¬ MeshReader.stlDeclaredCount bs = 0 := by
    intro h0; rw [h0] at htr; omega
  rw [if_neg hN]
  by_cases hM : 10000000 < MeshReader.stlDeclaredCount bs
  · rw [if_pos hM]; exact ⟨_, rfl⟩
  · rw [if_neg hM, if_pos (by omega)]; exact ⟨_, rfl⟩

/-- Witness for C3 at a concrete truncated file (declares 2 triangles,
holds one record). -/
theorem C3_truncated_stl_read_failed_witness :
    84 ≤ stlBinTruncFile.length ∧
    stlBinTruncFile.length < 84 + 50 * MeshReader.stlDeclaredCount stlBinTruncFile ∧
    ∃ msg, MeshReader.readSTLBinary stlBinTruncFile {} = ⟨.err .READ_FAILED msg, {}⟩ :=
  ⟨by decide, by decide,
   C3_truncated_stl_read_failed stlBinTruncFile {} (by decide) (by decide)⟩

/-! ### C4: MeshWriter::write and empty meshes -/

/-- C4 counterexample: a mesh with zero usable cells (three points, no
cells) is not refused with MeshEmpty — MeshData::isEmpty requires points
AND cells to be empty, so the writer proceeds to its per-format body, which
answers FORMAT_VERSION_INVALID for STL. -/
theorem C4_or_empty_counterexample :
    ptsOnlyMesh.cells = [] ∧
    (MeshWriter.write ptsOnlyMesh "o.stl" .STL_BINARY {} fsFix).1 =
      .err .FORMAT_VERSION_INVALID "STL format write not implemented" :=
  ⟨rfl, rfl⟩

/-- C4 amended: when both points and cells are empty, write refuses with
MeshEmpty, leaves the filesystem unchanged and attempts no directory
creation or file output. -/
theorem C4_empty_mesh_refused (md : MeshData) (p : String) (fmt : MeshFormat)
    (opts : FormatWriteOptions) (fs : FS)
    (hp : md.points = []) (hc : md.cells = []) :
    MeshWriter.write md p fmt opts fs =
      (.err .MESH_EMPTY "Mesh data is empty", fs, []) := by
  unfold MeshWriter.write MeshWriter.isMeshEmpty MeshData.isEmpty
  rw [hp, hc]
  simp

/-- Witness for the amended C4 at the default (empty) mesh. -/
theorem C4_empty_mesh_refused_witness :
    MeshWriter.write {} "o.stl" .STL_BINARY {} fsFix =
      (.err .MESH_EMPTY "Mesh data is empty", fsFix, []) :=
  C4_empty_mesh_refused {} "o.stl" .STL_BINARY {} fsFix rfl rfl

/-! ### C7: OBJ quad parsing -/

/-- C7: parsing an OBJ file with 4 vertex lines and "f 1 2 3 4" succeeds
with exactly one QUAD cell with 0-based indices [0,1,2,3]; with
reference-style suffixes ("f 1/5 2/6 3/7 4/8") the suffixes are ignored and
the result is identical. -/
theorem C7_obj_quad :
    (MeshReader.readOBJ fsFix "a.obj" {}).out = .ok ∧
    (MeshReader.readOBJ fsFix "a.obj" {}).mesh.cells =
      [⟨.QUAD, [0, 1, 2, 3]⟩] ∧
    (MeshReader.readOBJ fsFix "slash.obj" {}).out = .ok ∧
    (MeshReader.readOBJ fsFix "slash.obj" {}).mesh.cells =
      [⟨.QUAD, [0, 1, 2, 3]⟩] :=
  ⟨rfl, rfl, rfl, rfl⟩

/-! ### C2: batch conversion with one missing source -/

/-- C2: the concrete three-source batch (two readable OBJ meshes, one
missing path, existing destination directory): every writer in
MeshWriter.cpp is an unimplemented stub, so the two readable files fail at
the write stage with FORMAT_VERSION_INVALID, the success count is 0, and
the error map holds all three paths — the missing one with FILE_NOT_EXIST.
The spec's scenario expects successCount == 2 and a single-entry map. -/
theorem C2_batch_convert_evaluation :
    MeshConverter.batchConvert nullOracle
      ["in/a.obj", "in/b.obj", "in/missing.obj"] "out" .STL_BINARY {} fsBatch =
    .ok (0,
      [("in/a.obj", .FORMAT_VERSION_INVALID,
        "Write failed: STL format write not implemented"),
       ("in/b.obj", .FORMAT_VERSION_INVALID,
        "Write failed: STL format write not implemented"),
       ("in/missing.obj", .FILE_NOT_EXIST,
        "Source file does not exist: in/missing.obj")],
      fsBatch) := rfl

/-! ### C9: detection and parsing are deterministic -/

/-- C9: detecting a file's format twice yields the same tag, and parsing
the same file contents twice with the same reader yields bit-identical
results: each native reader clears the caller-supplied MeshData at entry
(MeshData::clear resets every field), so a second parse started from the
first parse's output state returns the identical ReadResult (mesh, success
flag and error data alike). -/
theorem C9_repeat_detection_and_parse :
    (∀ fs p, MeshReader.detectFormatFromHeader fs p =
        MeshReader.detectFormatFromHeader fs p ∧
      MeshHelper.detectFormat fs p = MeshHelper.detectFormat fs p) ∧
    (∀ fs p md, MeshReader.readSTL fs p (MeshReader.readSTL fs p md).mesh =
      MeshReader.readSTL fs p md) ∧
    (∀ fs p md, MeshReader.readOBJ fs p (MeshReader.readOBJ fs p md).mesh =
      MeshReader.readOBJ fs p md) ∧
    (∀ fs p md, MeshReader.readPLY fs p (MeshReader.readPLY fs p md).mesh =
      MeshReader.readPLY fs p md) ∧
    (∀ fs p md, MeshReader.readOFF fs p (MeshReader.readOFF fs p md).mesh =
      MeshReader.readOFF fs p md) :=
  ⟨fun _ _ => ⟨rfl, rfl⟩, fun _ _ _ => rfl, fun _ _ _ => rfl, fun _ _ _ => rfl,
   fun _ _ _ => rfl⟩

/-! ### C10: every reader clears the out-parameter at entry -/

/-- C10: each of readSTL, readOBJ, readPLY, readOFF, readVTK, readCGNS and
readGmsh clears the caller-supplied MeshData at entry, so its result —
successful or failed — is independent of whatever points, cells, attribute
maps or metadata the MeshData held before the call (for the three
library-backed readers this holds for every library behaviour, i.e. every
oracle). -/
theorem C10_readers_independent_of_prior_state :
    ∀ (o : MeshReader.LibOracle) (fs : FS) (p : String) (md1 md2 : MeshData),
      MeshReader.readSTL fs p md1 = MeshReader.readSTL fs p md2 ∧
      MeshReader.readOBJ fs p md1 = MeshReader.readOBJ fs p md2 ∧
      MeshReader.readPLY fs p md1 = MeshReader.readPLY fs p md2 ∧
      MeshReader.readOFF fs p md1 = MeshReader.readOFF fs p md2 ∧
      MeshReader.readVTK o fs p md1 = MeshReader.readVTK o fs p md2 ∧
      MeshReader.readCGNS o fs p md1 = MeshReader.readCGNS o fs p md2 ∧
      MeshReader.readGmsh o fs p md1 = MeshReader.readGmsh o fs p md2 :=
  fun _ _ _ _ _ => ⟨rfl, rfl, rfl, rfl, rfl, rfl, rfl⟩

/-! ### C8: structurally valid zero-element files yield MeshEmpty -/

/-- C8: a binary STL stream long enough to carry its header whose declared
triangle count is zero fails with MESH_EMPTY (not READ_FAILED); a PLY file
whose first line is "ply" and whose header scan succeeds declaring zero
vertices fails with MESH_EMPTY (not READ_FAILED). -/
theorem C8_zero_elements_mesh_empty :
    (∀ bs md, 84 ≤ bs.length → MeshReader.stlDeclaredCount bs = 0 →
      MeshReader.readSTLBinary bs md =
        ⟨.err .MESH_EMPTY "Binary STL file contains no triangles", md⟩) ∧
    (∀ (fs : FS) (p : String) (md : MeshData) (bs rest : List Nat)
        (hr : MeshReader.PlyHeader × List Nat),
      fs.openRead p = some bs →
      getlineB bs = some (S "ply", rest) →
      MeshReader.plyHeaderScan (lineSplits rest) {} = .ok hr →
      hr.1.vertexCount = 0 →
      MeshReader.readPLY fs p md =
        ⟨.err .MESH_EMPTY "No vertices found in PLY file", md.clear⟩) := by
  constructor
  · intro bs md h84 h0
    unfold MeshReader.readSTLBinary
    rw [if_neg (by omega), if_neg (by omega), if_pos h0]
  · intro fs p md bs rest hr hopen hline hscan hvc
    obtain ⟨st, body⟩ := hr
    have hvc2 : st.vertexCount = 0 := hvc
    unfold MeshReader.readPLY MeshReader.fileExists
    simp [openRead_pathExists hopen, hopen, hline, hscan, hvc2]

/-! ### C5: unambiguous extensions are detected without the file -/

/-- C5: for a path that does not exist on the filesystem and whose
extension maps unambiguously to one format (.vtk, .vtu/.vtp/.vti/.vts,
.cgns, .obj, .off, .su2), both MeshHelper::detectFormat and the
extension-only MeshHelper::detectFormatFromExtension return that format,
never UNKNOWN. -/
theorem C5_unambiguous_ext_detected (fs : FS) (p : String) (fmt : MeshFormat)
    (hne : fs.pathExists p = false)
    (hu : extUnambiguous (getFileExtension p) = some fmt) :
    MeshHelper.detectFormat fs p = fmt ∧
    MeshHelper.detectFormatFromExtension p = fmt ∧ fmt ≠ .UNKNOWN := by
  unfold extUnambiguous at hu
  unfold MeshHelper.detectFormat MeshHelper.detectFormatFromExtension
  repeat' split at hu
  all_goals try exact Option.noConfusion hu
  all_goals obtain rfl := Option.some.inj hu
  all_goals simp_all

/-- Witness for C5 at a nonexistent ".obj" path on the empty filesystem. -/
theorem C5_unambiguous_ext_detected_witness :
    MeshHelper.detectFormat {} "missing.obj" = .OBJ ∧
    MeshHelper.detectFormatFromExtension "missing.obj" = .OBJ ∧
    MeshFormat.OBJ ≠ .UNKNOWN :=
  C5_unambiguous_ext_detected {} "missing.obj" .OBJ rfl rfl

/-! ### C6: detection and short paths -/

/-- C6 counterexample: the existing three-character path "abc" makes
MeshReader::detectFormatFromHeader throw std::out_of_range — the size_t
subtraction `lowerPath.size() - 4` wraps and substr faults — so detection
does not complete without throwing on every existing path. -/
theorem C6_short_path_throws :
    fsFix.pathExists "abc" = true ∧
    MeshReader.detectFormatFromHeader fsFix "abc" = .error () :=
  ⟨rfl, rfl⟩

/-- For paths of length at least 4, the four-byte suffix substr of the
lowercased path succeeds: the size_t position does not wrap. -/
theorem substrT_lower_ok4 {p : String} (h4 : 4 ≤ p.data.length)
    (hsz : p.data.length < 2 ^ 64) :
    substrT (lowerStr p) (sizeSub (lowerStr p).data.length 4) =
      .ok ⟨(lowerStr p).data.drop (p.data.length - 4)⟩ := by
  have hlen : (lowerStr p).data.length = p.data.length :=
    List.length_map p.data lowerChar
  have e4 : sizeSub (lowerStr p).data.length 4 = p.data.length - 4 := by
    unfold sizeSub
    rw [hlen]
    have hs : p.data.length + 2 ^ 64 - 4 = (p.data.length - 4) + 2 ^ 64 := by
      omega
    rw [hs, Nat.add_mod_right, Nat.mod_eq_of_lt (by omega)]
  rw [e4]
  unfold substrT
  rw [if_pos (by rw [hlen]; omega)]

/-- For paths of length at least 5, the five-byte suffix substr of the
lowercased path succeeds: the size_t position does not wrap. -/
theorem substrT_lower_ok5 {p : String} (h5 : 5 ≤ p.data.length)
    (hsz : p.data.length < 2 ^ 64) :
    substrT (lowerStr p) (sizeSub (lowerStr p).data.length 5) =
      .ok ⟨(lowerStr p).data.drop (p.data.length - 5)⟩ := by
  have hlen : (lowerStr p).data.length = p.data.length :=
    List.length_map p.data lowerChar
  have e5 : sizeSub (lowerStr p).data.length 5 = p.data.length - 5 := by
    unfold sizeSub
    rw [hlen]
    have hs : p.data.length + 2 ^ 64 - 5 = (p.data.length - 5) + 2 ^ 64 := by
      omega
    rw [hs, Nat.add_mod_right, Nat.mod_eq_of_lt (by omega)]
  rw [e5]
  unfold substrT
  rw [if_pos (by rw [hlen]; omega)]

/-- When an existing path of length at least 5 matches no extension branch
and is not an OpenFOAM directory, detectFormatFromHeader falls through to
the 128-byte header probe. -/
theorem detect_falls_to_probe {fs : FS} {p : String}
    (hfe : fs.pathExists p = true) (h5 : 5 ≤ p.data.length)
    (hsz : p.data.length < 2 ^ 64) (hext : noExtMatch p)
    (hdir : fs.isDir p = false) :
    MeshReader.detectFormatFromHeader fs p =
      .ok (MeshReader.headerProbe fs p) := by
  obtain ⟨hmem, hcg⟩ := hext
  simp only [List.mem_cons, List.not_mem_nil, or_false, not_or] at hmem
  obtain ⟨hvtk, hvtu, hvtp, hvti, hvts, hmsh, hstl, hobj, hply, hoff,
    hsu2⟩ := hmem
  unfold MeshReader.detectFormatFromHeader MeshReader.fileExists
  rw [hfe, if_neg (by decide)]
  split
  · rename_i e heq
    rw [substrT_lower_ok4 (by omega) hsz] at heq
    exact Except.noConfusion heq
  · rename_i e4 heq
    rw [substrT_lower_ok4 (by omega) hsz] at heq
    obtain rfl := Except.ok.inj heq
    rw [if_neg hvtk, if_neg (by
      simp only [Bool.or_eq_true, decide_eq_true_eq]
      rintro (((hc | hc) | hc) | hc)
      exacts [hvtu hc, hvtp hc, hvti hc, hvts hc])]
    split
    · rename_i e heq5
      rw [substrT_lower_ok5 h5 hsz] at heq5
      exact Except.noConfusion heq5
    · rename_i e5 heq5
      rw [substrT_lower_ok5 h5 hsz] at heq5
      obtain rfl := Except.ok.inj heq5
      rw [if_neg hcg, if_neg hmsh, if_neg hstl, if_neg hobj, if_neg hply,
        if_neg hoff, if_neg hsu2, if_neg (by simp [hdir])]

/-- Opening succeeds: the header probe is the sniff of the file bytes. -/
theorem headerProbe_open {fs : FS} {p : String} {bs : List Nat}
    (h : fs.openRead p = some bs) :
    MeshReader.headerProbe fs p = MeshReader.headerSniff bs := by
  unfold MeshReader.headerProbe
  rw [h]

/-- When none of the probed magic tokens matches and the probe C-string is
nonempty, the header sniff falls through to UNKNOWN. -/
theorem headerSniff_unknown {bs : List Nat} (hnm : probeNoMatch bs)
    (hne : cString bs 128 ≠ []) :
    MeshReader.headerSniff bs = .UNKNOWN := by
  obtain ⟨h1, h2, h3, h4, h5, h6, h7, h8, h9, h10, h11⟩ := hnm
  unfold MeshReader.headerSniff
  rw [if_neg (by simp [h1]), if_neg (by simp [h2]),
    if_neg (by
      simp only [h3, Bool.false_or, Bool.and_eq_true, decide_eq_true_eq]
      exact fun hc => h4 ⟨hc.1.1.1, hc.1.1.2, hc.1.2, hc.2⟩),
    if_neg (by simp [h5]), if_neg (by simp [h6, h7]),
    if_neg (by simp [List.isEmpty_iff, hne]),
    if_neg (by simp [h8]), if_neg (by simp [h9]), if_neg (by simp [h10]),
    if_neg (by simp [h11])]

set_option maxHeartbeats 2000000 in
/-- C6 amended: (1) for every path of length at least 5 (and below the
size_t range), MeshReader::detectFormatFromHeader completes without
throwing — it returns some format tag — whether or not the path exists;
(2) when nothing matches — no extension branch matches, the path is not an
OpenFOAM directory, and the readable file's probe C-string is nonempty and
contains no magic token — it falls through to UNKNOWN; (3) an existing
path shorter than five characters need not throw: a path whose lowercased
text is ".vtk" itself matches the first extension comparison and returns
VTK_LEGACY before the throwing one (the "abc" counterexample shows other
short existing paths do throw); (4) an empty readable file does not fall
through to UNKNOWN: the defective binary-STL check compares the empty
headerStr against an empty literal and yields STL_BINARY.
(MeshHelper::detectFormat is total by construction.) -/
theorem C6_detection_amended :
    (∀ (fs : FS) (p : String), 5 ≤ p.data.length →
      p.data.length < 2 ^ 64 →
      ∃ fmt, MeshReader.detectFormatFromHeader fs p = .ok fmt) ∧
    (∀ (fs : FS) (p : String) (bs : List Nat), 5 ≤ p.data.length →
      p.data.length < 2 ^ 64 → noExtMatch p → fs.isDir p = false →
      fs.openRead p = some bs → probeNoMatch bs → cString bs 128 ≠ [] →
      MeshReader.detectFormatFromHeader fs p = .ok .UNKNOWN) ∧
    (∀ (fs : FS) (p : String), fs.pathExists p = true →
      lowerStr p = ".vtk" →
      MeshReader.detectFormatFromHeader fs p = .ok .VTK_LEGACY) ∧
    (∀ (fs : FS) (p : String), 5 ≤ p.data.length →
      p.data.length < 2 ^ 64 → noExtMatch p → fs.isDir p = false →
      fs.openRead p = some [] →
      MeshReader.detectFormatFromHeader fs p = .ok .STL_BINARY) := by
  refine ⟨?_, ?_, ?_, ?_⟩
  · intro fs p h5 hsz
    unfold MeshReader.detectFormatFromHeader
    by_cases hfe : MeshReader.fileExists fs p
    case neg =>
      rw [Bool.not_eq_true] at hfe
      rw [hfe, if_pos (by decide)]
      exact ⟨_, rfl⟩
    case pos =>
      rw [hfe, if_neg (by decide)]
      repeat' split
      all_goals try exact ⟨_, rfl⟩
      all_goals rename_i heq
      all_goals first
        | (rw [substrT_lower_ok4 (by omega) hsz] at heq;
           exact Except.noConfusion heq)
        | (rw [substrT_lower_ok5 h5 hsz] at heq;
           exact Except.noConfusion heq)
  · intro fs p bs h5 hsz hext hdir hopen hnm hne
    rw [detect_falls_to_probe (openRead_pathExists hopen) h5 hsz hext hdir,
      headerProbe_open hopen, headerSniff_unknown hnm hne]
  · intro fs p hfe hlow
    unfold MeshReader.detectFormatFromHeader MeshReader.fileExists
    rw [hfe, if_neg (by decide), hlow]
    rfl
  · intro fs p h5 hsz hext hdir hopen
    rw [detect_falls_to_probe (openRead_pathExists hopen) h5 hsz hext hdir,
      headerProbe_open hopen]
    rfl

/-- Witness for the amended C6: a five-character extension-free existing
file completes detection and falls through to UNKNOWN; the file ".vtk"
returns VTK_LEGACY without throwing; an existing empty file yields
STL_BINARY. -/
theorem C6_detection_amended_witness :
    (∃ fmt, MeshReader.detectFormatFromHeader fsProbe "hello" = .ok fmt) ∧
    MeshReader.detectFormatFromHeader fsProbe "hello" = .ok .UNKNOWN ∧
    MeshReader.detectFormatFromHeader fsDotVtk ".vtk" = .ok .VTK_LEGACY ∧
    MeshReader.detectFormatFromHeader fsEmptyFile "empty.bin" =
      .ok .STL_BINARY :=
  ⟨C6_detection_amended.1 fsProbe "hello" (by decide) (by decide),
   C6_detection_amended.2.1 fsProbe "hello"
     (S "some unrecognized text content") (by decide) (by decide)
     (by decide) (by decide) rfl (by decide) (by decide),
   C6_detection_amended.2.2.1 fsDotVtk ".vtk" (by decide) (by decide),
   C6_detection_amended.2.2.2 fsEmptyFile "empty.bin" (by decide)
     (by decide) (by decide) (by decide) rfl⟩

/-! ### C1: parser success and the mesh invariants -/

/-- A successful takeBytes returns exactly n bytes. -/
theorem takeBytes_some_length {n : Nat} {bs t r : List Nat}
    (h : takeBytes n bs = some (t, r)) : t.length = n := by
  unfold takeBytes at h
  split at h
  · have h2 := h
    simp only [Option.some.injEq, Prod.mk.injEq] at h2
    obtain ⟨rfl, rfl⟩ := h2
    exact List.length_take_of_le (by assumption)
  · exact Option.noConfusion h

/-- words32 packs every full 4-byte group. -/
theorem words32_length : ∀ l : List Nat, (words32 l).length = l.length / 4
  | [] => by simp [words32]
  | [a] => by simp [words32]
  | [a, b] => by simp [words32]
  | [a, b, c] => by simp [words32]
  | a :: b :: c :: d :: t => by
    have ih := words32_length t
    simp only [words32, List.length_cons, ih]
    omega

/-- Appending nine points and the triangle cell over their indices (as both
STL parsers do per record/facet) preserves both mesh invariants: the three
new uint32-cast indices stay below the new point count even when the cast
wraps, because a wrapped value only gets smaller. -/
theorem inv_append_tri {md : MeshData} {ps : List FVal} (h9 : ps.length = 9)
    (hp : meshPtsInv md) (hi : meshIdxInv md) :
    meshPtsInv (MeshReader.appendTri md ps) ∧
    meshIdxInv (MeshReader.appendTri md ps) := by
  unfold MeshReader.appendTri meshPtsInv meshIdxInv at *
  constructor
  · simp only [List.length_append, h9]
    omega
  · intro c hc i hii
    simp only [List.length_append, h9]
    rcases List.mem_append.mp hc with hold | hnew
    · have hb := hi c hold i hii
      have hle : md.points.length / 3 ≤ (md.points.length + 9) / 3 :=
        Nat.div_le_div_right (by omega)
      omega
    · have hc2 : c = ⟨.TRIANGLE,
          [md.points.length / 3 % 2 ^ 32, (md.points.length / 3 + 1) % 2 ^ 32,
           (md.points.length / 3 + 2) % 2 ^ 32]⟩ := by
        simpa using hnew
      subst hc2
      simp only [List.mem_cons, List.not_mem_nil, or_false] at hii
      rcases hii with h | h | h <;> subst h <;>
        exact lt_of_le_of_lt (Nat.mod_le _ _) (by omega)

/-- One step of the binary STL record loop preserves both invariants. -/
theorem stlBinLoop_inv : ∀ (n : Nat) (bs : List Nat) (md : MeshData),
    meshPtsInv md → meshIdxInv md →
    meshPtsInv (MeshReader.stlBinLoop n bs md).mesh ∧
    meshIdxInv (MeshReader.stlBinLoop n bs md).mesh := by
  intro n
  induction n with
  | zero =>
    intro bs md hp hi
    unfold MeshReader.stlBinLoop
    split
    · exact ⟨hp, hi⟩
    · exact ⟨hp, hi⟩
  | succ r ih =>
    intro bs md hp hi
    unfold MeshReader.stlBinLoop
    split
    · exact ⟨hp, hi⟩
    · rename_i p1 h1
      split
      · exact ⟨hp, hi⟩
      · rename_i p2 h2
        split
        · exact ⟨hp, hi⟩
        · rename_i p3 h3
          apply ih
          · exact (inv_append_tri (by
              simp only [List.length_map]
              rw [words32_length, takeBytes_some_length h2]) hp hi).1
          · exact (inv_append_tri (by
              simp only [List.length_map]
              rw [words32_length, takeBytes_some_length h2]) hp hi).2

/-- A successful facet step preserves both invariants. -/
theorem stlFacetStep_inr_inv {ns : List Nat} {ls : List (List Nat)}
    {md md' : MeshData}
    (h : MeshReader.stlFacetStep ns ls md = .inr md')
    (hp : meshPtsInv md) (hi : meshIdxInv md) :
    meshPtsInv md' ∧ meshIdxInv md' := by
  unfold MeshReader.stlFacetStep at h
  repeat' split at h
  all_goals try exact Sum.noConfusion h
  all_goals obtain rfl := Sum.inr.inj h
  · rename_i h9
    exact inv_append_tri h9 hp hi
  · exact ⟨hp, hi⟩

/-- The ASCII STL facet loop preserves both invariants. -/
theorem stlAsciiLoop_inv : ∀ (N : Nat) (ls : List (List Nat)) (md : MeshData),
    ls.length ≤ N → meshPtsInv md → meshIdxInv md →
    meshPtsInv (MeshReader.stlAsciiLoop ls md).mesh ∧
    meshIdxInv (MeshReader.stlAsciiLoop ls md).mesh := by
  intro N
  induction N with
  | zero =>
    intro ls md hl hp hi
    have hnil : ls = [] := List.length_eq_zero.mp (Nat.le_zero.mp hl)
    subst hnil
    unfold MeshReader.stlAsciiLoop MeshReader.stlAsciiDone
    split
    · exact ⟨hp, hi⟩
    · exact ⟨hp, hi⟩
  | succ k ih =>
    intro ls md hl hp hi
    match ls with
    | [] =>
      unfold MeshReader.stlAsciiLoop MeshReader.stlAsciiDone
      split
      · exact ⟨hp, hi⟩
      · exact ⟨hp, hi⟩
    | l :: ls2 =>
      have hl2 : ls2.length ≤ k := by
        simp only [List.length_cons] at hl
        omega
      unfold MeshReader.stlAsciiLoop
      split
      · exact ih ls2 md hl2 hp hi
      · split
        · split
          · exact ⟨hp, hi⟩
          · rename_i md' heq
            have hinv := stlFacetStep_inr_inv heq hp hi
            exact ih (ls2.drop 6) md'
              (le_trans (by simpa using List.length_drop_le 6 ls2) hl2)
              hinv.1 hinv.2
        · split
          · unfold MeshReader.stlAsciiDone
            split
            · exact ⟨hp, hi⟩
            · exact ⟨hp, hi⟩
          · exact ih ls2 md hl2 hp hi

/-- The PLY vertex loop accumulates whole coordinate triples. -/
theorem plyVertexLoop_mod3 : ∀ (n : Nat) (bs : List Nat) (acc vts : List FVal)
    (r : List Nat), acc.length % 3 = 0 →
    MeshReader.plyVertexLoop n bs acc = .ok (vts, r) →
    vts.length % 3 = 0 := by
  intro n
  induction n with
  | zero =>
    intro bs acc vts r ha h
    unfold MeshReader.plyVertexLoop at h
    have h2 := h
    simp only [Except.ok.injEq, Prod.mk.injEq] at h2
    obtain ⟨rfl, rfl⟩ := h2
    exact ha
  | succ m ih =>
    intro bs acc vts r ha h
    unfold MeshReader.plyVertexLoop at h
    split at h
    · exact Except.noConfusion h
    · split at h
      · exact Except.noConfusion h
      · split at h
        · exact Except.noConfusion h
        · exact ih _ _ _ _ (by
            simp only [List.length_append, List.length_cons, List.length_nil]
            omega) h

/-- The OFF vertex loop accumulates whole coordinate triples. -/
theorem offVertexLoop_mod3 : ∀ (n : Nat) (s : List Nat) (acc vts : List FVal)
    (r : List Nat), acc.length % 3 = 0 →
    MeshReader.offVertexLoop n s acc = .ok (vts, r) →
    vts.length % 3 = 0 := by
  intro n
  induction n with
  | zero =>
    intro s acc vts r ha h
    unfold MeshReader.offVertexLoop at h
    have h2 := h
    simp only [Except.ok.injEq, Prod.mk.injEq] at h2
    obtain ⟨rfl, rfl⟩ := h2
    exact ha
  | succ m ih =>
    intro s acc vts r ha h
    unfold MeshReader.offVertexLoop at h
    split at h
    · exact Except.noConfusion h
    · split at h
      · exact Except.noConfusion h
      · split at h
        · exact Except.noConfusion h
        · exact ih _ _ _ _ (by
            simp only [List.length_append, List.length_cons, List.length_nil]
            omega) h

/-- C1 counterexample: the OBJ parser accepts a face referencing a vertex
beyond the vertex list — "f 1 2 4" with only three vertices parses
successfully into a triangle cell holding index 3, violating the
cell-index invariant (readPLY and readOFF share this absence of index
validation). -/
theorem C1_obj_out_of_range_index :
    (MeshReader.readOBJ fsFix "bad.obj" {}).out = .ok ∧
    (MeshReader.readOBJ fsFix "bad.obj" {}).mesh.cells =
      [⟨.TRIANGLE, [0, 1, 3]⟩] ∧
    (MeshReader.readOBJ fsFix "bad.obj" {}).mesh.points.length = 9 ∧
    ¬ meshIdxInv (MeshReader.readOBJ fsFix "bad.obj" {}).mesh :=
  ⟨rfl, rfl, rfl, by decide⟩

/-- C1 amended: every successful parse satisfies
`points.size() % 3 == 0` for all five native surface parsers, and the STL
parser (both its binary and ASCII variants, via readSTL) additionally keeps
every cell index below points.size()/3; the OBJ/PLY/OFF parsers do not
bound-check face indices. -/
theorem C1_success_invariants :
    (∀ (fs : FS) (p : String) (md : MeshData),
      (MeshReader.readSTL fs p md).out = .ok →
      meshPtsInv (MeshReader.readSTL fs p md).mesh ∧
      meshIdxInv (MeshReader.readSTL fs p md).mesh) ∧
    (∀ (fs : FS) (p : String) (md : MeshData),
      (MeshReader.readOBJ fs p md).out = .ok →
      meshPtsInv (MeshReader.readOBJ fs p md).mesh) ∧
    (∀ (fs : FS) (p : String) (md : MeshData),
      (MeshReader.readPLY fs p md).out = .ok →
      meshPtsInv (MeshReader.readPLY fs p md).mesh) ∧
    (∀ (fs : FS) (p : String) (md : MeshData),
      (MeshReader.readOFF fs p md).out = .ok →
      meshPtsInv (MeshReader.readOFF fs p md).mesh) := by
  have hclr : ∀ md : MeshData, meshPtsInv md.clear ∧ meshIdxInv md.clear := by
    intro md
    constructor
    · rfl
    · intro c hc i hii
      exact absurd hc (List.not_mem_nil c)
  refine ⟨?_, ?_, ?_, ?_⟩
  · intro fs p md
    unfold MeshReader.readSTL
    repeat' split
    all_goals intro hok
    all_goals try exact absurd hok (by intro hx; exact Outcome.noConfusion hx)
    · unfold MeshReader.readSTLASCII
      split
      · exact ⟨(hclr md).1, fun c hc => absurd hc (List.not_mem_nil c)⟩
      · exact stlAsciiLoop_inv _ _ _ (le_refl _) (hclr md).1 (hclr md).2
    · unfold MeshReader.readSTLBinary
      repeat' split
      all_goals try exact ⟨(hclr md).1, (hclr md).2⟩
      exact stlBinLoop_inv _ _ _ (hclr md).1 (hclr md).2
  · intro fs p md
    unfold MeshReader.readOBJ
    repeat' split
    all_goals intro hok
    all_goals try exact absurd hok (by intro hx; exact Outcome.noConfusion hx)
    exact not_not.mp (by assumption)
  · intro fs p md
    unfold MeshReader.readPLY
    repeat' split
    all_goals intro hok
    all_goals try exact absurd hok (by intro hx; exact Outcome.noConfusion hx)
    exact plyVertexLoop_mod3 _ _ [] _ _ rfl (by assumption)
  · intro fs p md
    unfold MeshReader.readOFF
    repeat' split
    all_goals intro hok
    all_goals try exact absurd hok (by intro hx; exact Outcome.noConfusion hx)
    all_goals exact offVertexLoop_mod3 _ _ [] _ _ rfl (by assumption)

/-- Witness for the amended C1 at concrete successful parses: the binary
STL fixture (via readSTL), plus OBJ, PLY and OFF fixtures. -/
theorem C1_success_invariants_witness :
    (meshPtsInv (MeshReader.readSTL fsFix "t.stl" {}).mesh ∧
      meshIdxInv (MeshReader.readSTL fsFix "t.stl" {}).mesh) ∧
    meshPtsInv (MeshReader.readOBJ fsFix "a.obj" {}).mesh ∧
    meshPtsInv (MeshReader.readPLY fsFix "m.ply" {}).mesh ∧
    meshPtsInv (MeshReader.readOFF fsFix "m.off" {}).mesh :=
  ⟨C1_success_invariants.1 fsFix "t.stl" {} rfl,
   C1_success_invariants.2.1 fsFix "a.obj" {} rfl,
   C1_success_invariants.2.2.1 fsFix "m.ply" {} rfl,
   C1_success_invariants.2.2.2 fsFix "m.off" {} rfl⟩

/-- Witness for C8 at the concrete zero-count binary STL and zero-vertex
PLY fixtures. -/
theorem C8_zero_elements_mesh_empty_witness :
    MeshReader.readSTLBinary stlBinZeroFile {} =
      ⟨.err .MESH_EMPTY "Binary STL file contains no triangles", {}⟩ ∧
    MeshReader.readPLY fsFix "z.ply" {} =
      ⟨.err .MESH_EMPTY "No vertices found in PLY file", ({} : MeshData).clear⟩ :=
  ⟨C8_zero_elements_mesh_empty.1 stlBinZeroFile {} (by decide) (by decide),
   C8_zero_elements_mesh_empty.2 fsFix "z.ply" {} plyZeroFile
     (S "format ascii 1.0\nelement vertex 0\nend_header\n")
     (⟨{ isBinary := false, vertexCount := 0, faceCount := 0 }, []⟩)
     rfl rfl rfl rfl⟩

end MeshConv
